import Mathlib

/-!
Shallow embedding of the core of lahar (`src/lahar.h`): physical-device
selection, the capability registry, window registration, swapchain
build/recreation, the per-window frame state machine, and the attachment
layout-transition helper.

Modelling conventions:
* C pointers/handles are `Nat`, with `0` standing for `NULL` / `VK_NULL_HANDLE`.
* Error codes (`LAHAR_ERR_*`) and Vulkan enums/bit masks are `Nat` constants
  with the values from the header.
* Results of external Vulkan / backend / user-allocator calls are supplied by
  explicit oracle structures; the embedded functions follow the C control flow
  on those results.  The windowing backends' `lahar_window_get_size`
  (GLFW/SDL variants) always return success, so a size oracle is a plain pair.
* The global scratch arena (`lahar_temp_*`) performs no observable state
  change and is not modelled; heap allocation is assumed to succeed.
* `LAHAR_ASSERT` aborts the process; an abort is represented by the
  distinguished result code `LAHAR_MODEL_ASSERT_FAILED`, which is outside the
  `LAHAR_ERR_*` space.
* Pluggable callbacks (scorer, format/present-mode chooser, resizer) are
  modelled in their default configuration; a custom scorer can be passed to
  the device-selection embedding as an explicit option.
-/

/-! ### Error codes (src/lahar.h lines 195-210) -/

def LAHAR_ERR_SUCCESS : Nat := 0
def LAHAR_ERR_ILLEGAL_PARAMS : Nat := 0x01000001
def LAHAR_ERR_LOAD_FAILURE : Nat := 0x01000002
def LAHAR_ERR_INVALID_CONFIGURATION : Nat := 0x01000003
def LAHAR_ERR_MISSING_EXTENSION : Nat := 0x01000004
def LAHAR_ERR_NO_SUITABLE_DEVICE : Nat := 0x01000005
def LAHAR_ERR_DEPENDENCY_FAILED : Nat := 0x01000006
def LAHAR_ERR_ALLOC_FAILED : Nat := 0x01000007
def LAHAR_ERR_INVALID_STATE : Nat := 0x01000008
def LAHAR_ERR_VK_ERR : Nat := 0x01000009
def LAHAR_ERR_INVALID_WINDOW : Nat := 0x0100000A
def LAHAR_ERR_NO_COMMAND_BUFFER : Nat := 0x0100000B
def LAHAR_ERR_TIMEOUT : Nat := 0x0100000C
def LAHAR_ERR_SWAPCHAIN_OUT_OF_DATE : Nat := 0x0100000D
def LAHAR_ERR_INVALID_FRAME_STATE : Nat := 0x0100000E
def LAHAR_ERR_ATTACHMENT_WO_ALLOCATOR : Nat := 0x0100000F

/-- Model-only code standing for an aborted `LAHAR_ASSERT`. -/
def LAHAR_MODEL_ASSERT_FAILED : Nat := 0x0FF00001
/-- Model-only code returned when the oracle stream of acquire results is
exhausted (the C recursion would simply keep calling the driver). -/
def LAHAR_MODEL_NO_ORACLE : Nat := 0x0FF00002

/-! ### Vulkan constants used by the embedded code -/

def VK_IMAGE_LAYOUT_UNDEFINED : Nat := 0
def VK_IMAGE_LAYOUT_GENERAL : Nat := 1
def VK_IMAGE_LAYOUT_COLOR_ATTACHMENT_OPTIMAL : Nat := 2
def VK_IMAGE_LAYOUT_DEPTH_STENCIL_ATTACHMENT_OPTIMAL : Nat := 3
def VK_IMAGE_LAYOUT_SHADER_READ_ONLY_OPTIMAL : Nat := 5
def VK_IMAGE_LAYOUT_TRANSFER_SRC_OPTIMAL : Nat := 6
def VK_IMAGE_LAYOUT_TRANSFER_DST_OPTIMAL : Nat := 7
def VK_IMAGE_LAYOUT_PRESENT_SRC_KHR : Nat := 1000001002

def VK_ACCESS_SHADER_READ_BIT : Nat := 0x20
def VK_ACCESS_COLOR_ATTACHMENT_READ_BIT : Nat := 0x80
def VK_ACCESS_COLOR_ATTACHMENT_WRITE_BIT : Nat := 0x100
def VK_ACCESS_DEPTH_STENCIL_ATTACHMENT_READ_BIT : Nat := 0x200
def VK_ACCESS_DEPTH_STENCIL_ATTACHMENT_WRITE_BIT : Nat := 0x400
def VK_ACCESS_TRANSFER_READ_BIT : Nat := 0x800
def VK_ACCESS_TRANSFER_WRITE_BIT : Nat := 0x1000

def VK_PIPELINE_STAGE_TOP_OF_PIPE_BIT : Nat := 0x1
def VK_PIPELINE_STAGE_FRAGMENT_SHADER_BIT : Nat := 0x80
def VK_PIPELINE_STAGE_EARLY_FRAGMENT_TESTS_BIT : Nat := 0x100
def VK_PIPELINE_STAGE_LATE_FRAGMENT_TESTS_BIT : Nat := 0x200
def VK_PIPELINE_STAGE_COLOR_ATTACHMENT_OUTPUT_BIT : Nat := 0x400
def VK_PIPELINE_STAGE_TRANSFER_BIT : Nat := 0x1000
def VK_PIPELINE_STAGE_BOTTOM_OF_PIPE_BIT : Nat := 0x2000
def VK_PIPELINE_STAGE_ALL_COMMANDS_BIT : Nat := 0x10000

def VK_IMAGE_ASPECT_COLOR_BIT : Nat := 1
def VK_IMAGE_ASPECT_DEPTH_BIT : Nat := 2
def VK_IMAGE_ASPECT_STENCIL_BIT : Nat := 4

def VK_IMAGE_USAGE_COLOR_ATTACHMENT_BIT : Nat := 0x10
def VK_IMAGE_USAGE_DEPTH_STENCIL_ATTACHMENT_BIT : Nat := 0x20

def VK_FORMAT_B8G8R8A8_SRGB : Nat := 50
def VK_COLORSPACE_SRGB_NONLINEAR_KHR : Nat := 0
def VK_FORMAT_D16_UNORM : Nat := 124
def VK_FORMAT_D32_SFLOAT : Nat := 126
def VK_FORMAT_S8_UINT : Nat := 127
def VK_FORMAT_D24_UNORM_S8_UINT : Nat := 129
def VK_FORMAT_D32_SFLOAT_S8_UINT : Nat := 130

def VK_PRESENT_MODE_MAILBOX_KHR : Nat := 1
def VK_PRESENT_MODE_FIFO_KHR : Nat := 2

def VK_PHYSICAL_DEVICE_TYPE_INTEGRATED_GPU : Nat := 1
def VK_PHYSICAL_DEVICE_TYPE_DISCRETE_GPU : Nat := 2
def VK_MEMORY_HEAP_DEVICE_LOCAL_BIT : Nat := 1
def VK_QUEUE_GRAPHICS_BIT : Nat := 1

def VK_SHARING_MODE_EXCLUSIVE : Nat := 0
def VK_SHARING_MODE_CONCURRENT : Nat := 1
def VK_COMPOSITE_ALPHA_OPAQUE_BIT_KHR : Nat := 1

/-- The `VkResult` values the embedding distinguishes; negative is failure. -/
def VK_SUCCESS : Int := 0
def VK_SUBOPTIMAL_KHR : Int := 1000001003
def VK_ERROR_OUT_OF_DATE_KHR : Int := -1000001004

/-! ### Data model (`struct Lahar` and friends) -/

/-- A `VkMemoryHeap`: size plus flag bits. -/
structure VkMemoryHeap where
  size : Nat
  flags : Nat
deriving Repr, DecidableEq, Inhabited

/-- The fields of `VkPhysicalDeviceProperties` the core reads. -/
structure VkPhysicalDeviceProperties where
  deviceType : Nat
  deviceName : String
deriving Repr, DecidableEq, Inhabited

/-- The `struct LaharDeviceInfo` snapshot captured per candidate by
`__lahar_build_physdev`.  Surface formats are `(format, colorSpace)` pairs. -/
structure LaharDeviceInfo where
  properties : VkPhysicalDeviceProperties
  memoryHeaps : List VkMemoryHeap
  surface_formats : List (Nat × Nat)
  present_modes : List Nat
  graphics_queue_index : Nat
  present_queue_index : Nat
  has_graphics_queue : Bool
  has_present_queue : Bool
deriving Repr, DecidableEq, Inhabited

/-- The `enum LaharFramePhase`. -/
inductive LaharFramePhase where
  | BEGIN
  | DRAW
  | PRESENT
deriving Repr, DecidableEq, Inhabited

/-- The `struct LaharAttachmentConfig`; only the `usage` flag is observable to the
modelled operations (the image/view creation templates are passed through to
Vulkan verbatim). -/
structure LaharAttachmentConfig where
  usage : Nat
deriving Repr, DecidableEq, Inhabited

/-- The `struct LaharAttachment` (the opaque allocation handle is a `Nat`). -/
structure LaharAttachment where
  img_allocation : Nat
  image : Nat
  view : Nat
  layout : Nat
deriving Repr, DecidableEq, Inhabited

/-- The `struct LaharWindowState`.  Synchronization-primitive handles and the
optional command-buffer array are not observable to the claims and are left
out; the resize callback is fixed to the default resizer. -/
structure LaharWindowState where
  window : Nat
  width : Nat
  height : Nat
  desired_img_count : Nat
  max_in_flight : Nat
  frame_phase : LaharFramePhase
  alpha : Nat
  auto_recreate_swap : Bool
  surface_format : Nat × Nat
  swap_size : Nat
  flight_index : Nat
  frame_index : Nat
  attachment_count : Nat
  attachment_configs : List LaharAttachmentConfig
  attachments : List (List LaharAttachment)
deriving Repr, DecidableEq, Inhabited

/-- The four extension-name categories plus the parallel granted-flag arrays
(`lahar->extensions`). -/
structure LaharExtensions where
  req_inst_exts : List String
  req_dev_exts : List String
  opt_inst_exts : List String
  opt_inst_exts_present : List Bool
  opt_dev_exts : List String
  opt_dev_exts_present : List Bool
deriving Repr, DecidableEq, Inhabited

/-- The `struct Lahar`, restricted to the fields the modelled operations read or
write.  `gpu_allocator` records whether an allocator is configured; the
allocator's calls are answered by oracles. -/
structure Lahar where
  wantcommands : Bool
  gpu_allocator : Bool
  device_name : Option String
  physdev_info : LaharDeviceInfo
  windows : List LaharWindowState
  extensions : LaharExtensions
deriving Repr, DecidableEq, Inhabited

def Lahar.setWindow (lahar : Lahar) (i : Nat) (ws : LaharWindowState) : Lahar :=
  { lahar with windows := lahar.windows.set i ws }

/-- The lookup `lahar_window_state` scans the window array for the first entry whose
`window` pointer matches; the embedding returns its index. -/
def __lahar_find_window : List LaharWindowState → Nat → Option Nat
  | [], _ => none
  | w :: rest, window =>
    if w.window = window then some 0
    else (__lahar_find_window rest window).map (· + 1)

def lahar_window_state_idx (lahar : Lahar) (window : Nat) : Option Nat :=
  __lahar_find_window lahar.windows window

/-! ### Builder operations -/

/-- Embeds `lahar_builder_device_use` (src/lahar.h 2733-2741): copies the name into
`lahar->device_name` (the name-is-empty and strdup-failure paths are the
guards; allocation is assumed to succeed). -/
def lahar_builder_device_use (lahar : Lahar) (name : String) : Nat × Lahar :=
  if name = "" then (LAHAR_ERR_ILLEGAL_PARAMS, lahar)
  else (LAHAR_ERR_SUCCESS, { lahar with device_name := some name })

/-- Embeds `lahar_builder_extension_add_required_device` (2649-2665): appends the
name to the required-device list. -/
def lahar_builder_extension_add_required_device (lahar : Lahar) (ext : String) :
    Nat × Lahar :=
  (LAHAR_ERR_SUCCESS,
   { lahar with extensions :=
      { lahar.extensions with
        req_dev_exts := lahar.extensions.req_dev_exts ++ [ext] } })

/-- Embeds `lahar_builder_extension_add_optional_device` (2697-2727): appends the
name to the optional-device list and `false` to the parallel granted array. -/
def lahar_builder_extension_add_optional_device (lahar : Lahar) (ext : String) :
    Nat × Lahar :=
  (LAHAR_ERR_SUCCESS,
   { lahar with extensions :=
      { lahar.extensions with
        opt_dev_exts := lahar.extensions.opt_dev_exts ++ [ext],
        opt_dev_exts_present := lahar.extensions.opt_dev_exts_present ++ [false] } })

/-- The parallel-array scan in `lahar_extension_has_device`'s first loop:
return the granted flag of the first optional entry matching `ext`. -/
def __lahar_opt_present_lookup : List String → List Bool → String → Option Bool
  | [], _, _ => none
  | e :: es, flags, ext =>
    if ext = e then some (flags.headD false)
    else __lahar_opt_present_lookup es (flags.tailD []) ext

/-- Embeds `lahar_extension_has_device` (2892-2908): the optional-device list is
scanned first (returning the granted flag on a match), then the
required-device list (returning true on a match), else false. -/
def lahar_extension_has_device (lahar : Lahar) (ext : String) : Bool :=
  match __lahar_opt_present_lookup lahar.extensions.opt_dev_exts
      lahar.extensions.opt_dev_exts_present ext with
  | some present => present
  | none => lahar.extensions.req_dev_exts.contains ext

/-! ### Device scoring and selection -/

/-- The device-local-memory accumulation loop of `__lahar_default_scorer`
(2284-2290). -/
def deviceLocalMemory (heaps : List VkMemoryHeap) : Nat :=
  heaps.foldl
    (fun acc h =>
      if h.flags &&& VK_MEMORY_HEAP_DEVICE_LOCAL_BIT ≠ 0 then acc + h.size else acc)
    0

/-- Embeds `__lahar_default_scorer` (2266-2298).  The C memory bonus is
`(size_t)((local_memory / 107374182400.0) * 1000)` — a real-valued rescale
truncated to an integer; it is modelled as the exact rational floor
`local_memory * 1000 / 107374182400`. -/
def __lahar_default_scorer (devinfo : LaharDeviceInfo) : Int :=
  if !devinfo.has_graphics_queue || !devinfo.has_present_queue then -1
  else
    let score : Int := 0
    let score :=
      if devinfo.properties.deviceType = VK_PHYSICAL_DEVICE_TYPE_DISCRETE_GPU then
        score + 1000
      else if devinfo.properties.deviceType = VK_PHYSICAL_DEVICE_TYPE_INTEGRATED_GPU then
        score + 100
      else score
    let score :=
      if devinfo.present_queue_index = devinfo.graphics_queue_index then score + 50
      else score
    let local_memory := deviceLocalMemory devinfo.memoryHeaps
    let remapped_memory := local_memory * 1000 / 107374182400
    score + Int.ofNat remapped_memory

/-- The best-device loop of `__lahar_build_physdev` (3377-3382):
`best_dev`/`best_score` start at `-1` and a candidate replaces the incumbent
only on a strictly greater score. -/
def __lahar_pick_best : List Int → Nat → Int × Int → Int × Int
  | [], _, acc => acc
  | s :: rest, i, (best_dev, best_score) =>
    if s > best_score then __lahar_pick_best rest (i + 1) (Int.ofNat i, s)
    else __lahar_pick_best rest (i + 1) (best_dev, best_score)

/-- Embeds `__lahar_build_physdev` (3284-3412), after the per-device capability
snapshots have been gathered into `dev_infos`: score every candidate with the
configured scorer (default scorer when none is set) and keep the best;
`best_dev == -1` is the no-suitable-device failure.  `enum_ok` is the result
of `vkEnumeratePhysicalDevices`.  Note that `device_name` — the pin recorded
by `lahar_builder_device_use` — is a parameter the function never consults,
exactly as in the C code. -/
def __lahar_build_physdev (enum_ok : Bool) (device_name : Option String)
    (score_func : Option (LaharDeviceInfo → Int))
    (dev_infos : List LaharDeviceInfo) : Except Nat LaharDeviceInfo :=
  if !enum_ok then Except.error LAHAR_ERR_VK_ERR
  else
    let scorer := score_func.getD __lahar_default_scorer
    let dev_scores := dev_infos.map scorer
    let best := __lahar_pick_best dev_scores 0 (-1, -1)
    if best.1 = -1 then Except.error LAHAR_ERR_NO_SUITABLE_DEVICE
    else Except.ok (dev_infos.getD best.1.toNat default)

/-! ### Layout-transition lookup tables -/

/-- Embeds `__lahar_access_mask` (3881-3900). -/
def __lahar_access_mask (layout : Nat) : Nat :=
  if layout = VK_IMAGE_LAYOUT_UNDEFINED then 0
  else if layout = VK_IMAGE_LAYOUT_PRESENT_SRC_KHR then 0
  else if layout = VK_IMAGE_LAYOUT_COLOR_ATTACHMENT_OPTIMAL then
    VK_ACCESS_COLOR_ATTACHMENT_READ_BIT ||| VK_ACCESS_COLOR_ATTACHMENT_WRITE_BIT
  else if layout = VK_IMAGE_LAYOUT_DEPTH_STENCIL_ATTACHMENT_OPTIMAL then
    VK_ACCESS_DEPTH_STENCIL_ATTACHMENT_READ_BIT |||
      VK_ACCESS_DEPTH_STENCIL_ATTACHMENT_WRITE_BIT
  else if layout = VK_IMAGE_LAYOUT_SHADER_READ_ONLY_OPTIMAL then
    VK_ACCESS_SHADER_READ_BIT
  else if layout = VK_IMAGE_LAYOUT_TRANSFER_SRC_OPTIMAL then
    VK_ACCESS_TRANSFER_READ_BIT
  else if layout = VK_IMAGE_LAYOUT_TRANSFER_DST_OPTIMAL then
    VK_ACCESS_TRANSFER_WRITE_BIT
  else 0

/-- Embeds `__lahar_pipeline_stage` (3902-3920). -/
def __lahar_pipeline_stage (layout : Nat) : Nat :=
  if layout = VK_IMAGE_LAYOUT_UNDEFINED then VK_PIPELINE_STAGE_TOP_OF_PIPE_BIT
  else if layout = VK_IMAGE_LAYOUT_PRESENT_SRC_KHR then
    VK_PIPELINE_STAGE_BOTTOM_OF_PIPE_BIT
  else if layout = VK_IMAGE_LAYOUT_COLOR_ATTACHMENT_OPTIMAL then
    VK_PIPELINE_STAGE_COLOR_ATTACHMENT_OUTPUT_BIT
  else if layout = VK_IMAGE_LAYOUT_DEPTH_STENCIL_ATTACHMENT_OPTIMAL then
    VK_PIPELINE_STAGE_EARLY_FRAGMENT_TESTS_BIT |||
      VK_PIPELINE_STAGE_LATE_FRAGMENT_TESTS_BIT
  else if layout = VK_IMAGE_LAYOUT_SHADER_READ_ONLY_OPTIMAL then
    VK_PIPELINE_STAGE_FRAGMENT_SHADER_BIT
  else if layout = VK_IMAGE_LAYOUT_TRANSFER_SRC_OPTIMAL then
    VK_PIPELINE_STAGE_TRANSFER_BIT
  else if layout = VK_IMAGE_LAYOUT_TRANSFER_DST_OPTIMAL then
    VK_PIPELINE_STAGE_TRANSFER_BIT
  else VK_PIPELINE_STAGE_ALL_COMMANDS_BIT

/-- Embeds `__lahar_aspect_mask_from_usage` (3922-3939). -/
def __lahar_aspect_mask_from_usage (usage : Nat) (format : Nat) : Nat :=
  if usage &&& VK_IMAGE_USAGE_DEPTH_STENCIL_ATTACHMENT_BIT ≠ 0 then
    if format = VK_FORMAT_D24_UNORM_S8_UINT ∨ format = VK_FORMAT_D32_SFLOAT_S8_UINT then
      VK_IMAGE_ASPECT_DEPTH_BIT ||| VK_IMAGE_ASPECT_STENCIL_BIT
    else if format = VK_FORMAT_D16_UNORM ∨ format = VK_FORMAT_D32_SFLOAT then
      VK_IMAGE_ASPECT_DEPTH_BIT
    else if format = VK_FORMAT_S8_UINT then VK_IMAGE_ASPECT_STENCIL_BIT
    else VK_IMAGE_ASPECT_DEPTH_BIT
  else VK_IMAGE_ASPECT_COLOR_BIT

/-- The `vkCmdPipelineBarrier` invocation recorded by
`lahar_window_attachment_transition`: the two stage arguments plus the fields
of the single `VkImageMemoryBarrier`. -/
structure LaharBarrierCmd where
  srcStage : Nat
  dstStage : Nat
  srcAccessMask : Nat
  dstAccessMask : Nat
  oldLayout : Nat
  newLayout : Nat
  image : Nat
  aspectMask : Nat
deriving Repr, DecidableEq, Inhabited

/-- Embeds `lahar_window_attachment_transition` (3941-3987).  Returns the error
code, the updated state, and the barrier recorded into the command buffer
(`none` when the layouts already match).  The dst access mask and dst stage
are computed from `attachment->layout` (the old layout), exactly as the C
code does. -/
def lahar_window_attachment_transition (lahar : Lahar) (window : Nat)
    (attachment_index : Nat) (layout : Nat) (cmd : Nat) :
    Nat × Lahar × Option LaharBarrierCmd :=
  if window = 0 ∨ cmd = 0 then (LAHAR_ERR_ILLEGAL_PARAMS, lahar, none)
  else
    match lahar_window_state_idx lahar window with
    | none => (LAHAR_ERR_INVALID_WINDOW, lahar, none)
    | some i =>
      let ws := lahar.windows.getD i default
      if attachment_index ≥ ws.attachment_count then
        (LAHAR_ERR_ILLEGAL_PARAMS, lahar, none)
      else
        let row := ws.attachments.getD attachment_index []
        let att := row.getD ws.frame_index default
        let conf := ws.attachment_configs.getD attachment_index default
        if att.layout ≠ layout then
          let bc : LaharBarrierCmd :=
            { srcStage := __lahar_pipeline_stage att.layout
              dstStage := __lahar_pipeline_stage att.layout
              srcAccessMask := __lahar_access_mask att.layout
              dstAccessMask := __lahar_access_mask att.layout
              oldLayout := att.layout
              newLayout := layout
              image := att.image
              aspectMask := __lahar_aspect_mask_from_usage conf.usage ws.surface_format.1 }
          let row' := row.set ws.frame_index { att with layout := layout }
          let ws' := { ws with attachments := ws.attachments.set attachment_index row' }
          (LAHAR_ERR_SUCCESS, lahar.setWindow i ws', some bc)
        else (LAHAR_ERR_SUCCESS, lahar, none)

/-! ### Window registration -/

/-- The `struct LaharWindowConfig`. -/
structure LaharWindowConfig where
  attachment_count : Nat
  attachments : List LaharAttachmentConfig
  desired_swap_size : Nat
  max_in_flight : Nat
  alpha : Nat
  no_auto_swap_resize : Bool
deriving Repr, DecidableEq, Inhabited

/-- Embeds `lahar_builder_window_register_ex` (2754-2796): appends a zero-initialized
window state and fills it in.  The GLFW/SDL `lahar_window_get_size` backends
always succeed and report `size`; heap allocation is assumed to succeed. -/
def lahar_builder_window_register_ex (lahar : Lahar) (window : Nat)
    (winconf : LaharWindowConfig) (size : Nat × Nat) : Nat × Lahar :=
  if window = 0 ∨ winconf.attachment_count = 0 then (LAHAR_ERR_ILLEGAL_PARAMS, lahar)
  else
    let ws : LaharWindowState :=
      { window := window
        width := size.1
        height := size.2
        desired_img_count :=
          if winconf.desired_swap_size ≠ 0 then winconf.desired_swap_size else 2
        max_in_flight :=
          if winconf.max_in_flight ≠ 0 then winconf.max_in_flight else 2
        frame_phase := LaharFramePhase.BEGIN
        alpha := winconf.alpha
        auto_recreate_swap := !winconf.no_auto_swap_resize
        surface_format := (0, 0)
        swap_size := 0
        flight_index := 0
        frame_index := 0
        attachment_count := winconf.attachment_count
        attachment_configs := winconf.attachments.take winconf.attachment_count
        attachments := List.replicate winconf.attachment_count [] }
    (LAHAR_ERR_SUCCESS, { lahar with windows := lahar.windows ++ [ws] })

/-! ### Swapchain build and recreation -/

/-- The fields of `VkSurfaceCapabilitiesKHR` the build/resize code reads. -/
structure VkSurfaceCaps where
  minImageCount : Nat
  maxImageCount : Nat
  minExtentW : Nat
  minExtentH : Nat
  maxExtentW : Nat
  maxExtentH : Nat
deriving Repr, DecidableEq, Inhabited

/-- The extent clamp applied to both width and height (3553-3565 / 2415-2427):
clamp to max first, else raise to min. -/
def __lahar_clamp_extent (v minv maxv : Nat) : Nat :=
  if v > maxv then maxv else if v < minv then minv else v

/-- The image-count clamp (3573-3578 / 2435-2440): cap at `maxImageCount`
when nonzero, else raise to `minImageCount` when nonzero. -/
def __lahar_clamp_image_count (caps : VkSurfaceCaps) (count : Nat) : Nat :=
  if caps.maxImageCount > 0 ∧ count > caps.maxImageCount then caps.maxImageCount
  else if caps.minImageCount > 0 ∧ count < caps.minImageCount then caps.minImageCount
  else count

/-- Embeds `__lahar_default_surface_format_chooser` (2300-2313): prefer
B8G8R8A8-SRGB with the SRGB-nonlinear colorspace, else the first entry.  The
default chooser always reports success. -/
def __lahar_default_surface_format_chooser (physdev_info : LaharDeviceInfo) :
    Nat × Nat :=
  match physdev_info.surface_formats.find?
      (fun f => f.1 == VK_FORMAT_B8G8R8A8_SRGB && f.2 == VK_COLORSPACE_SRGB_NONLINEAR_KHR) with
  | some f => f
  | none => physdev_info.surface_formats.getD 0 (0, 0)

/-- Embeds `__lahar_default_surface_present_mode_chooser` (2315-2327): mailbox when
available, else FIFO.  Always succeeds. -/
def __lahar_default_surface_present_mode_chooser (physdev_info : LaharDeviceInfo) :
    Nat :=
  if physdev_info.present_modes.contains VK_PRESENT_MODE_MAILBOX_KHR then
    VK_PRESENT_MODE_MAILBOX_KHR
  else VK_PRESENT_MODE_FIFO_KHR

/-- The `VkSwapchainCreateInfoKHR` fields the embedding records for each
`vkCreateSwapchainKHR` call. -/
structure VkSwapchainCreateRecord where
  minImageCount : Nat
  imageFormat : Nat
  imageColorSpace : Nat
  imageSharingMode : Nat
  extentW : Nat
  extentH : Nat
  compositeAlpha : Nat
  presentMode : Nat
deriving Repr, DecidableEq, Inhabited

/-- Oracle for the external calls a single swapchain build/recreation makes.
`alloc_results` answers the user allocator's `alloc_image` (a lahar error
code or a created image handle); `color_view_results` / `att_view_results`
answer `vkCreateImageView` (`none` = failure). -/
structure LaharSwapOracle where
  wait_ok : Bool
  caps_ok : Bool
  caps : VkSurfaceCaps
  size : Nat × Nat
  create_swapchain_ok : Bool
  swap_image_count : Nat
  swap_images : List Nat
  color_view_results : List (Option Nat)
  alloc_results : List (Except Nat Nat)
  att_view_results : List (Option Nat)
  cmd_alloc_ok : Bool
deriving Repr, Inhabited

/-- The per-swap-image color-view loop (3600-3628 / 2458-2487): for each
index, create a view (failing with `LAHAR_ERR_VK_ERR`) and store the image
and view handles into the color attachment row; the resizer variant also
resets the stored layout to `UNDEFINED` (`set_layout = true`). -/
def __lahar_color_views_go (imgs : List Nat) (views : List (Option Nat))
    (set_layout : Bool) :
    List Nat → List LaharAttachment → Nat × List LaharAttachment
  | [], atts => (LAHAR_ERR_SUCCESS, atts)
  | j :: rest, atts =>
    match views.getD j (some 0) with
    | none => (LAHAR_ERR_VK_ERR, atts)
    | some v =>
      let old := atts.getD j default
      let att :=
        { old with
          image := imgs.getD j 0
          view := v
          layout := if set_layout then VK_IMAGE_LAYOUT_UNDEFINED else old.layout }
      __lahar_color_views_go imgs views set_layout rest (atts.set j att)

/-- The inner (per-swap-image) loop for one extra attachment type (3650-3669 /
2509-2531): allocate the image through the configured allocator (propagating
its error code verbatim), create its view (failing with `LAHAR_ERR_VK_ERR`),
and in the resizer variant reset the stored layout.  `cursor` indexes the
oracle streams across all alloc/view calls of the run. -/
def __lahar_extra_att_row (allocs : List (Except Nat Nat))
    (views : List (Option Nat)) (set_layout : Bool) :
    List Nat → Nat → List LaharAttachment → Nat × Nat × List LaharAttachment
  | [], cursor, row => (LAHAR_ERR_SUCCESS, cursor, row)
  | k :: rest, cursor, row =>
    match allocs.getD cursor (Except.ok 0) with
    | Except.error e => (e, cursor + 1, row)
    | Except.ok img =>
      match views.getD cursor (some 0) with
      | none => (LAHAR_ERR_VK_ERR, cursor + 1, row)
      | some v =>
        let old := row.getD k default
        let att :=
          { old with
            image := img
            view := v
            layout := if set_layout then VK_IMAGE_LAYOUT_UNDEFINED else old.layout }
        __lahar_extra_att_row allocs views set_layout rest (cursor + 1) (row.set k att)

/-- The outer loop over the extra (non-color) attachment types (3635-3670 /
2494-2532). -/
def __lahar_extra_atts (allocs : List (Except Nat Nat))
    (views : List (Option Nat)) (set_layout : Bool) (swap_size : Nat) :
    List Nat → Nat → List (List LaharAttachment) →
    Nat × List (List LaharAttachment)
  | [], _, atts => (LAHAR_ERR_SUCCESS, atts)
  | j :: rest, cursor, atts =>
    let row := atts.getD j []
    let r := __lahar_extra_att_row allocs views set_layout (List.range swap_size) cursor row
    let atts' := atts.set j r.2.2
    if r.1 ≠ LAHAR_ERR_SUCCESS then (r.1, atts')
    else __lahar_extra_atts allocs views set_layout swap_size rest r.2.1 atts'

/-- The `desired_img_count == 0 → 2` normalization applied before every
swapchain creation (3515-3517 and 2383-2385). -/
def __lahar_norm_desired (ws : LaharWindowState) : LaharWindowState :=
  if ws.desired_img_count = 0 then { ws with desired_img_count := 2 } else ws

/-- The `VkSwapchainCreateInfoKHR` the build/resize code assembles for
`vkCreateSwapchainKHR` on window state `ws` (after normalization and format
choice), with extent and image count already clamped against the
capabilities. -/
def __lahar_swap_create_record (lahar : Lahar) (ws : LaharWindowState)
    (o : LaharSwapOracle) : VkSwapchainCreateRecord :=
  { minImageCount := __lahar_clamp_image_count o.caps ws.desired_img_count
    imageFormat := ws.surface_format.1
    imageColorSpace := ws.surface_format.2
    imageSharingMode :=
      if lahar.physdev_info.graphics_queue_index = lahar.physdev_info.present_queue_index
      then VK_SHARING_MODE_EXCLUSIVE else VK_SHARING_MODE_CONCURRENT
    extentW := __lahar_clamp_extent o.size.1 o.caps.minExtentW o.caps.maxExtentW
    extentH := __lahar_clamp_extent o.size.2 o.caps.minExtentH o.caps.maxExtentH
    compositeAlpha := if ws.alpha ≠ 0 then ws.alpha else VK_COMPOSITE_ALPHA_OPAQUE_BIT_KHR
    presentMode := __lahar_default_surface_present_mode_chooser lahar.physdev_info }

/-- The tail of the per-window build (from `vkCreateSwapchainKHR` onward,
3582-3686): create the swapchain, re-query images, allocate the zeroed
attachment rows, create color views, guard the allocator, create the extra
attachments, and optionally allocate command buffers.  `lahar0` supplies the
configuration flags read by the guards. -/
def __lahar_build_swapchain_window_core (lahar0 lahar2 : Lahar)
    (ws : LaharWindowState) (i : Nat) (o : LaharSwapOracle) : Nat × Lahar :=
  if !o.create_swapchain_ok then (LAHAR_ERR_VK_ERR, lahar2)
  else
    let ws := { ws with swap_size := o.swap_image_count }
    -- one freshly zeroed attachment row per attachment type (3589-3593)
    let ws :=
      { ws with
        attachments :=
          List.replicate ws.attachment_count
            (List.replicate o.swap_image_count default) }
    let lahar3 := lahar2.setWindow i ws
    let cv := __lahar_color_views_go o.swap_images o.color_view_results false
      (List.range ws.swap_size) (ws.attachments.getD 0 [])
    let ws := { ws with attachments := ws.attachments.set 0 cv.2 }
    let lahar4 := lahar3.setWindow i ws
    if cv.1 ≠ LAHAR_ERR_SUCCESS then (cv.1, lahar4)
    else if ws.attachment_count > 1 ∧ !lahar0.gpu_allocator then
      (LAHAR_ERR_INVALID_CONFIGURATION, lahar4)
    else
      let ea := __lahar_extra_atts o.alloc_results o.att_view_results false
        ws.swap_size ((List.range ws.attachment_count).drop 1) 0 ws.attachments
      let ws := { ws with attachments := ea.2 }
      let lahar5 := lahar4.setWindow i ws
      if ea.1 ≠ LAHAR_ERR_SUCCESS then (ea.1, lahar5)
      else if lahar0.wantcommands ∧ !o.cmd_alloc_ok then (LAHAR_ERR_VK_ERR, lahar5)
      else (LAHAR_ERR_SUCCESS, lahar5)

/-- The body of `__lahar_build_swapchain`'s per-window loop (3511-3687),
acting on window index `i`.  Returns the error code, the updated state, and
the `vkCreateSwapchainKHR` calls issued (the create call happens exactly when
the capability query succeeded — the default choosers cannot fail). -/
def __lahar_build_swapchain_window (lahar : Lahar) (i : Nat)
    (o : LaharSwapOracle) : Nat × Lahar × List VkSwapchainCreateRecord :=
  let ws := __lahar_norm_desired (lahar.windows.getD i default)
  let lahar1 := lahar.setWindow i ws
  if !o.caps_ok then (LAHAR_ERR_VK_ERR, lahar1, [])
  else
    let fmt := __lahar_default_surface_format_chooser lahar.physdev_info
    let ws := { ws with surface_format := fmt }
    let lahar2 := lahar1.setWindow i ws
    let cinfo := __lahar_swap_create_record lahar ws o
    let r := __lahar_build_swapchain_window_core lahar lahar2 ws i o
    (r.1, r.2, [cinfo])

/-- The window loop of `__lahar_build_swapchain` (3498-3692): process the
windows in order, stopping at the first error. -/
def __lahar_build_swapchain_go (os : List LaharSwapOracle) :
    List Nat → Lahar → List VkSwapchainCreateRecord →
    Nat × Lahar × List VkSwapchainCreateRecord
  | [], lahar, recs => (LAHAR_ERR_SUCCESS, lahar, recs)
  | i :: rest, lahar, recs =>
    let r := __lahar_build_swapchain_window lahar i (os.getD i default)
    if r.1 ≠ LAHAR_ERR_SUCCESS then (r.1, r.2.1, recs ++ r.2.2)
    else __lahar_build_swapchain_go os rest r.2.1 (recs ++ r.2.2)

def __lahar_build_swapchain (lahar : Lahar) (os : List LaharSwapOracle) :
    Nat × Lahar × List VkSwapchainCreateRecord :=
  __lahar_build_swapchain_go os (List.range lahar.windows.length) lahar []

/-- The tail of the resizer (from `vkCreateSwapchainKHR` onward, 2444-2536):
a failed creation leaves `err` at success (the C only records the VkResult);
the re-queried image count is asserted equal to the old count; views are
recreated and stored layouts reset to UNDEFINED. -/
def __lahar_resizer_core (lahar0 lahar2 : Lahar) (ws : LaharWindowState)
    (i old_swap_size : Nat) (o : LaharSwapOracle) : Nat × Lahar :=
  if !o.create_swapchain_ok then
    -- C slip: `err` is left at LAHAR_ERR_SUCCESS on this path (2444)
    (LAHAR_ERR_SUCCESS, lahar2)
  else
    let ws := { ws with swap_size := o.swap_image_count }
    let lahar3 := lahar2.setWindow i ws
    if old_swap_size ≠ ws.swap_size then (LAHAR_MODEL_ASSERT_FAILED, lahar3)
    else
      let cv := __lahar_color_views_go o.swap_images o.color_view_results true
        (List.range ws.swap_size) (ws.attachments.getD 0 [])
      let ws := { ws with attachments := ws.attachments.set 0 cv.2 }
      let lahar4 := lahar3.setWindow i ws
      if cv.1 ≠ LAHAR_ERR_SUCCESS then (cv.1, lahar4)
      else if ws.attachment_count > 1 ∧ !lahar0.gpu_allocator then
        (LAHAR_ERR_INVALID_CONFIGURATION, lahar4)
      else
        let ea := __lahar_extra_atts o.alloc_results o.att_view_results true
          ws.swap_size ((List.range ws.attachment_count).drop 1) 0 ws.attachments
        let ws := { ws with attachments := ea.2 }
        let lahar5 := lahar4.setWindow i ws
        (ea.1, lahar5)

/-- Embeds `__lahar_default_resizer` (2329-2537).  Differences from the first-build
path, kept faithfully: a wait-until-inactive step; an early
attachment-without-allocator guard returning `LAHAR_ERR_INVALID_STATE`; the
`desired_img_count` normalization happens after the teardown; the
continuation from the create call lives in `__lahar_resizer_core`. -/
def __lahar_default_resizer (lahar : Lahar) (window : Nat)
    (o : LaharSwapOracle) : Nat × Lahar × List VkSwapchainCreateRecord :=
  match lahar_window_state_idx lahar window with
  | none => (LAHAR_ERR_INVALID_WINDOW, lahar, [])
  | some i =>
    let ws := lahar.windows.getD i default
    -- lahar_window_wait_inactive: the same lookup succeeds again; the fence
    -- wait's VkResult comes from the oracle (3989-3997)
    if !o.wait_ok then (LAHAR_ERR_VK_ERR, lahar, [])
    else if ws.attachment_count > 1 ∧ !lahar.gpu_allocator then
      (LAHAR_ERR_INVALID_STATE, lahar, [])
    else
      -- old views/images/swapchain destroyed (handles are not tracked)
      let old_swap_size := ws.swap_size
      let ws := __lahar_norm_desired ws
      let lahar1 := lahar.setWindow i ws
      if !o.caps_ok then (LAHAR_ERR_VK_ERR, lahar1, [])
      else
        let fmt := __lahar_default_surface_format_chooser lahar.physdev_info
        let ws := { ws with surface_format := fmt }
        let lahar2 := lahar1.setWindow i ws
        let cinfo := __lahar_swap_create_record lahar ws o
        let r := __lahar_resizer_core lahar lahar2 ws i old_swap_size o
        (r.1, r.2, [cinfo])

/-- Embeds `lahar_window_swapchain_resize` (3760-3767) with the resize callback in
its default configuration. -/
def lahar_window_swapchain_resize (lahar : Lahar) (window : Nat)
    (o : LaharSwapOracle) : Nat × Lahar × List VkSwapchainCreateRecord :=
  match lahar_window_state_idx lahar window with
  | none => (LAHAR_ERR_INVALID_WINDOW, lahar, [])
  | some _ => __lahar_default_resizer lahar window o

/-! ### Frame lifecycle -/

/-- One `vkAcquireNextImageKHR` outcome: the `VkResult` and the image index
written through the out-parameter on the success codes. -/
structure LaharAcquireOutcome where
  res : Int
  image_index : Nat
deriving Repr, Inhabited

/-- Embeds `lahar_window_frame_begin` (3769-3807).  The C function retries itself
recursively after an automatic swapchain recreation; the embedding consumes
one acquire outcome (and, when recreating, one resize oracle) per attempt and
reports `LAHAR_MODEL_NO_ORACLE` if the stream runs out.  The fence wait's
result is ignored by the C code. -/
def lahar_window_frame_begin (lahar : Lahar) (window : Nat) :
    List LaharAcquireOutcome → List LaharSwapOracle → Nat × Lahar
  | [], _ => (LAHAR_MODEL_NO_ORACLE, lahar)
  | acq :: acqs, ros =>
    if window = 0 then (LAHAR_ERR_ILLEGAL_PARAMS, lahar)
    else
      match lahar_window_state_idx lahar window with
      | none => (LAHAR_ERR_INVALID_WINDOW, lahar)
      | some i =>
        let ws := lahar.windows.getD i default
        if ws.frame_phase ≠ LaharFramePhase.BEGIN then
          (LAHAR_ERR_INVALID_FRAME_STATE, lahar)
        else
          -- vkAcquireNextImageKHR writes `frame_index` on the success codes
          let ws1 :=
            if acq.res = VK_SUCCESS ∨ acq.res = VK_SUBOPTIMAL_KHR then
              { ws with frame_index := acq.image_index }
            else ws
          let lahar1 := lahar.setWindow i ws1
          if acq.res = VK_SUBOPTIMAL_KHR ∨ acq.res = VK_ERROR_OUT_OF_DATE_KHR then
            if ws1.auto_recreate_swap then
              let r := lahar_window_swapchain_resize lahar1 window (ros.headD default)
              if r.1 ≠ LAHAR_ERR_SUCCESS then (r.1, r.2.1)
              else lahar_window_frame_begin r.2.1 window acqs (ros.tailD [])
            else (LAHAR_ERR_SWAPCHAIN_OUT_OF_DATE, lahar1)
          else if acq.res ≠ VK_SUCCESS then (LAHAR_ERR_VK_ERR, lahar1)
          else
            (LAHAR_ERR_SUCCESS,
             lahar1.setWindow i { ws1 with frame_phase := LaharFramePhase.DRAW })

/-- Embeds `lahar_window_submit_all` (3809-3840).  Here `cmds_isnull` models the null test on `cmds`;
`vk_submit_ok` is `vkQueueSubmit`'s result. -/
def lahar_window_submit_all (lahar : Lahar) (window : Nat)
    (cmds_isnull : Bool) (cmd_count : Nat) (vk_submit_ok : Bool) : Nat × Lahar :=
  if window = 0 ∨ cmds_isnull ∨ cmd_count = 0 then (LAHAR_ERR_ILLEGAL_PARAMS, lahar)
  else
    match lahar_window_state_idx lahar window with
    | none => (LAHAR_ERR_INVALID_WINDOW, lahar)
    | some i =>
      let ws := lahar.windows.getD i default
      if ws.frame_phase ≠ LaharFramePhase.DRAW then
        (LAHAR_ERR_INVALID_FRAME_STATE, lahar)
      else if !vk_submit_ok then (LAHAR_ERR_VK_ERR, lahar)
      else
        (LAHAR_ERR_SUCCESS,
         lahar.setWindow i { ws with frame_phase := LaharFramePhase.PRESENT })

/-- Embeds `lahar_window_submit` (3842-3844): forwards a single command buffer; the
`cmds` pointer it passes is the address of a local and is never null. -/
def lahar_window_submit (lahar : Lahar) (window : Nat) (vk_submit_ok : Bool) :
    Nat × Lahar :=
  lahar_window_submit_all lahar window false 1 vk_submit_ok

/-- Embeds `lahar_window_present` (3847-3878).  Here `vk_present_ok` is
`vkQueuePresentKHR`'s result. -/
def lahar_window_present (lahar : Lahar) (window : Nat) (vk_present_ok : Bool) :
    Nat × Lahar :=
  match lahar_window_state_idx lahar window with
  | none => (LAHAR_ERR_INVALID_WINDOW, lahar)
  | some i =>
    let ws := lahar.windows.getD i default
    match ws.frame_phase with
    | LaharFramePhase.BEGIN => (LAHAR_ERR_INVALID_FRAME_STATE, lahar)
    | LaharFramePhase.DRAW => (LAHAR_ERR_NO_COMMAND_BUFFER, lahar)
    | LaharFramePhase.PRESENT =>
      if !vk_present_ok then (LAHAR_ERR_VK_ERR, lahar)
      else
        (LAHAR_ERR_SUCCESS,
         lahar.setWindow i
          { ws with
            flight_index := (ws.flight_index + 1) % ws.max_in_flight
            frame_phase := LaharFramePhase.BEGIN })

/-! ### Logical-device build (extension-relevant skeleton) -/

/-- Oracle for `__lahar_build_device`'s external calls. -/
structure LaharDeviceBuildOracle where
  create_device_ok : Bool
  load_device_err : Nat
  create_pool_ok : Bool
deriving Repr, DecidableEq, Inhabited

/-- Embeds `__lahar_build_device` (3414-3496): creates the logical device, loads the
device-level entry points, fetches the two queues, and optionally creates the
command pool.  It never reads or writes the extension registry — in
particular no optional-device-extension negotiation happens here (the only
extension enabled is the swapchain extension, hardcoded).  A failed
`vkCreateDevice` leaves `err` at `LAHAR_ERR_SUCCESS` (3469), as in the C. -/
def __lahar_build_device (lahar : Lahar) (o : LaharDeviceBuildOracle) :
    Nat × Lahar :=
  if !o.create_device_ok then (LAHAR_ERR_SUCCESS, lahar)
  else if o.load_device_err ≠ LAHAR_ERR_SUCCESS then (o.load_device_err, lahar)
  else if lahar.wantcommands ∧ !o.create_pool_ok then (LAHAR_ERR_VK_ERR, lahar)
  else (LAHAR_ERR_SUCCESS, lahar)

/-! ### List helper lemmas -/

theorem list_getD_eq_get {α : Type} :
    ∀ (l : List α) (k : Nat) (d : α) (h : k < l.length), l.getD k d = l.get ⟨k, h⟩ := by
  intro l
  induction l with
  | nil => intro k d h; exact absurd h (Nat.not_lt_zero k)
  | cons a t ih =>
    intro k d h
    cases k with
    | zero => rfl
    | succ n => exact ih n d (Nat.lt_of_succ_lt_succ h)

theorem list_getD_set_self {α : Type} :
    ∀ (l : List α) (k : Nat) (a d : α), k < l.length → (l.set k a).getD k d = a := by
  intro l
  induction l with
  | nil => intro k a d h; exact absurd h (Nat.not_lt_zero k)
  | cons b t ih =>
    intro k a d h
    cases k with
    | zero => rfl
    | succ n => exact ih n a d (Nat.lt_of_succ_lt_succ h)

theorem list_map_set_of_eq {α β : Type} (f : α → β) :
    ∀ (l : List α) (k : Nat) (a d : α), f a = f (l.getD k d) →
      (l.set k a).map f = l.map f := by
  intro l
  induction l with
  | nil => intro k a d _; rfl
  | cons b t ih =>
    intro k a d h
    cases k with
    | zero => simpa using congrArg (fun x => x :: t.map f) h
    | succ n =>
      show f b :: (t.set n a).map f = f b :: t.map f
      exact congrArg (f b :: ·) (ih n a d h)

theorem list_get_map {α β : Type} (f : α → β) :
    ∀ (l : List α) (k : Nat) (hk : k < (l.map f).length) (hk2 : k < l.length),
      (l.map f).get ⟨k, hk⟩ = f (l.get ⟨k, hk2⟩) := by
  intro l
  induction l with
  | nil => intro k hk _; exact absurd hk (Nat.not_lt_zero k)
  | cons a t ih =>
    intro k hk hk2
    cases k with
    | zero => rfl
    | succ n => exact ih n (Nat.lt_of_succ_lt_succ hk) (Nat.lt_of_succ_lt_succ hk2)

theorem list_mem_tailD {α : Type} (l : List α) (x : α) (h : x ∈ l.tailD []) : x ∈ l := by
  cases l with
  | nil => simp at h
  | cons a t => exact List.mem_cons_of_mem a h

theorem find_window_lt_length :
    ∀ (l : List LaharWindowState) (window i : Nat),
      __lahar_find_window l window = some i → i < l.length := by
  intro l
  induction l with
  | nil => intro window i h; simp [__lahar_find_window] at h
  | cons w t ih =>
    intro window i h
    simp only [__lahar_find_window] at h
    by_cases hw : w.window = window
    · rw [if_pos hw] at h
      cases h
      simp
    · rw [if_neg hw] at h
      cases hmap : __lahar_find_window t window with
      | none => rw [hmap] at h; exact Option.noConfusion h
      | some j =>
        rw [hmap] at h
        injection h with h
        subst h
        exact Nat.succ_lt_succ (ih window j hmap)

theorem find_window_get :
    ∀ (l : List LaharWindowState) (window i : Nat) (d : LaharWindowState),
      __lahar_find_window l window = some i → (l.getD i d).window = window := by
  intro l
  induction l with
  | nil => intro window i d h; simp [__lahar_find_window] at h
  | cons w t ih =>
    intro window i d h
    simp only [__lahar_find_window] at h
    by_cases hw : w.window = window
    · rw [if_pos hw] at h
      cases h
      exact hw
    · rw [if_neg hw] at h
      cases hmap : __lahar_find_window t window with
      | none => rw [hmap] at h; exact Option.noConfusion h
      | some j =>
        rw [hmap] at h
        injection h with h
        subst h
        exact ih window j d hmap

theorem find_window_set :
    ∀ (l : List LaharWindowState) (window i : Nat) (a : LaharWindowState),
      __lahar_find_window l window = some i → a.window = window →
      __lahar_find_window (l.set i a) window = some i := by
  intro l
  induction l with
  | nil => intro window i a h _; simp [__lahar_find_window] at h
  | cons w t ih =>
    intro window i a h ha
    simp only [__lahar_find_window] at h
    by_cases hw : w.window = window
    · rw [if_pos hw] at h
      cases h
      show __lahar_find_window (a :: t) window = some 0
      simp [__lahar_find_window, ha]
    · rw [if_neg hw] at h
      cases hmap : __lahar_find_window t window with
      | none => rw [hmap] at h; exact Option.noConfusion h
      | some j =>
        rw [hmap] at h
        injection h with h
        subst h
        show __lahar_find_window (w :: t.set j a) window = some (j + 1)
        simp [__lahar_find_window, hw, ih window j a hmap ha]

theorem find_window_eq_of_map_eq :
    ∀ (l1 l2 : List LaharWindowState) (window : Nat),
      l1.map (fun w => w.window) = l2.map (fun w => w.window) →
      __lahar_find_window l1 window = __lahar_find_window l2 window := by
  intro l1
  induction l1 with
  | nil =>
    intro l2 window h
    cases l2 with
    | nil => rfl
    | cons b t2 => simp at h
  | cons a t ih =>
    intro l2 window h
    cases l2 with
    | nil => simp at h
    | cons b t2 =>
      simp only [List.map_cons, List.cons.injEq] at h
      obtain ⟨h1, h2⟩ := h
      simp only [__lahar_find_window, h1, ih t2 window h2]

/-! ### C1: device-name pinning -/

/-- A discrete GPU named Alpha with both queue roles, 8 GiB of device-local
memory. -/
def c1_alpha_info : LaharDeviceInfo :=
  { properties := { deviceType := VK_PHYSICAL_DEVICE_TYPE_DISCRETE_GPU, deviceName := "Alpha" }
    memoryHeaps := [{ size := 8589934592, flags := VK_MEMORY_HEAP_DEVICE_LOCAL_BIT }]
    surface_formats := [(VK_FORMAT_B8G8R8A8_SRGB, VK_COLORSPACE_SRGB_NONLINEAR_KHR)]
    present_modes := [VK_PRESENT_MODE_FIFO_KHR]
    graphics_queue_index := 0
    present_queue_index := 0
    has_graphics_queue := true
    has_present_queue := true }

/-- C1: physical-device selection never consults the pinned device name.
With the name pinned to Beta and a single enumerated device named Alpha, the
selection succeeds and returns the Alpha device instead of matching by name
or failing with the no-suitable-device error — refuting the claim that a
device whose name differs from the pinned name is never selected. -/
theorem c1_device_pin_ignored :
    __lahar_build_physdev true (some ("Beta")) none [c1_alpha_info] = Except.ok c1_alpha_info
    ∧ c1_alpha_info.properties.deviceName = "Alpha"
    ∧ ("Alpha" : String) ≠ "Beta"
    ∧ __lahar_build_physdev true (some ("Beta")) none [c1_alpha_info]
        ≠ Except.error LAHAR_ERR_NO_SUITABLE_DEVICE := by
  refine ⟨rfl, rfl, by decide, ?_⟩
  intro h
  rw [show __lahar_build_physdev true (some ("Beta")) none [c1_alpha_info]
        = Except.ok c1_alpha_info from rfl] at h
  exact Except.noConfusion h

/-! ### C2: attachment-without-allocator error codes -/

def c2_winconf : LaharWindowConfig :=
  { attachment_count := 2
    attachments :=
      [{ usage := 0 }, { usage := VK_IMAGE_USAGE_DEPTH_STENCIL_ATTACHMENT_BIT }]
    desired_swap_size := 0
    max_in_flight := 0
    alpha := 0
    no_auto_swap_resize := false }

/-- A Lahar with no GPU allocator and one registered two-attachment window
(window handle 7). -/
def c2_lahar : Lahar :=
  (lahar_builder_window_register_ex
    { wantcommands := false, gpu_allocator := false, device_name := none,
      physdev_info := default, windows := [], extensions := default }
    7 c2_winconf (800, 600)).2

def c2_oracle : LaharSwapOracle :=
  { wait_ok := true
    caps_ok := true
    caps := { minImageCount := 1, maxImageCount := 8, minExtentW := 1, minExtentH := 1,
              maxExtentW := 4096, maxExtentH := 4096 }
    size := (800, 600)
    create_swapchain_ok := true
    swap_image_count := 2
    swap_images := [31, 32]
    color_view_results := [some 41, some 42]
    alloc_results := []
    att_view_results := []
    cmd_alloc_ok := true }

/-- C2: for a window with attachment_count = 2 and no allocator configured,
the first swapchain build fails with LAHAR_ERR_INVALID_CONFIGURATION and the
recreation path fails with LAHAR_ERR_INVALID_STATE — neither is the
LAHAR_ERR_ATTACHMENT_WO_ALLOCATOR code the claim (and the error code's own
documentation) prescribes for this condition. -/
theorem c2_attachment_without_allocator_error_codes :
    (__lahar_build_swapchain c2_lahar [c2_oracle]).1 = LAHAR_ERR_INVALID_CONFIGURATION
    ∧ (__lahar_default_resizer c2_lahar 7 c2_oracle).1 = LAHAR_ERR_INVALID_STATE
    ∧ LAHAR_ERR_INVALID_CONFIGURATION ≠ LAHAR_ERR_ATTACHMENT_WO_ALLOCATOR
    ∧ LAHAR_ERR_INVALID_STATE ≠ LAHAR_ERR_ATTACHMENT_WO_ALLOCATOR := by
  exact ⟨rfl, rfl, by decide, by decide⟩

/-! ### C3: transition barrier masks -/

def c3_window_state : LaharWindowState :=
  { window := 7, width := 800, height := 600, desired_img_count := 2, max_in_flight := 2
    frame_phase := LaharFramePhase.DRAW, alpha := 1, auto_recreate_swap := true
    surface_format := (VK_FORMAT_B8G8R8A8_SRGB, VK_COLORSPACE_SRGB_NONLINEAR_KHR)
    swap_size := 2, flight_index := 0, frame_index := 0
    attachment_count := 1
    attachment_configs := [{ usage := 0 }]
    attachments :=
      [[{ img_allocation := 0, image := 31, view := 41,
          layout := VK_IMAGE_LAYOUT_COLOR_ATTACHMENT_OPTIMAL },
        { img_allocation := 0, image := 32, view := 42,
          layout := VK_IMAGE_LAYOUT_COLOR_ATTACHMENT_OPTIMAL }]] }

def c3_lahar : Lahar :=
  { wantcommands := false, gpu_allocator := false, device_name := none,
    physdev_info := default, windows := [c3_window_state], extensions := default }

/-- C3: transitioning an attachment recorded at COLOR_ATTACHMENT_OPTIMAL to
the differing target PRESENT_SRC records a barrier whose srcAccessMask and
srcStage come from the old layout's lookup entries — but whose dstAccessMask
and dstStage also come from the old layout's entries, not the target's,
refuting the claim (the two lookup tables map the two layouts to different
values here). -/
theorem c3_transition_dst_from_old_layout :
    ((lahar_window_attachment_transition c3_lahar 7 0
        VK_IMAGE_LAYOUT_PRESENT_SRC_KHR 5).2.2).map
        (fun bc => (bc.srcAccessMask, bc.srcStage, bc.dstAccessMask, bc.dstStage))
      = some (__lahar_access_mask VK_IMAGE_LAYOUT_COLOR_ATTACHMENT_OPTIMAL,
              __lahar_pipeline_stage VK_IMAGE_LAYOUT_COLOR_ATTACHMENT_OPTIMAL,
              __lahar_access_mask VK_IMAGE_LAYOUT_COLOR_ATTACHMENT_OPTIMAL,
              __lahar_pipeline_stage VK_IMAGE_LAYOUT_COLOR_ATTACHMENT_OPTIMAL)
    ∧ __lahar_access_mask VK_IMAGE_LAYOUT_COLOR_ATTACHMENT_OPTIMAL
        ≠ __lahar_access_mask VK_IMAGE_LAYOUT_PRESENT_SRC_KHR
    ∧ __lahar_pipeline_stage VK_IMAGE_LAYOUT_COLOR_ATTACHMENT_OPTIMAL
        ≠ __lahar_pipeline_stage VK_IMAGE_LAYOUT_PRESENT_SRC_KHR := by
  exact ⟨rfl, by decide, by decide⟩

/-! ### C6: default scoring and selection -/

theorem pick_best_unchanged :
    ∀ (l : List Int) (i : Nat) (bd bs : Int),
      (∀ x ∈ l, x ≤ bs) → __lahar_pick_best l i (bd, bs) = (bd, bs) := by
  intro l
  induction l with
  | nil => intro i bd bs _; rfl
  | cons s rest ih =>
    intro i bd bs hall
    have hs : s ≤ bs := hall s (List.mem_cons_self s rest)
    show __lahar_pick_best (s :: rest) i (bd, bs) = (bd, bs)
    rw [__lahar_pick_best]
    rw [if_neg (not_lt.mpr hs)]
    exact ih (i + 1) bd bs (fun x hx => hall x (List.mem_cons_of_mem s hx))

theorem pick_best_found :
    ∀ (l : List Int) (i : Nat) (bd bs : Int),
      (∃ x ∈ l, bs < x) →
      ∃ k, ∃ hk : k < l.length,
        (__lahar_pick_best l i (bd, bs)).1 = Int.ofNat (i + k)
        ∧ (__lahar_pick_best l i (bd, bs)).2 = l.get ⟨k, hk⟩
        ∧ bs < l.get ⟨k, hk⟩
        ∧ (∀ m (hm : m < l.length), l.get ⟨m, hm⟩ ≤ l.get ⟨k, hk⟩)
        ∧ (∀ m (hm : m < l.length), m < k →
            l.get ⟨m, hm⟩ < l.get ⟨k, hk⟩ ∨ l.get ⟨m, hm⟩ ≤ bs) := by
  intro l
  induction l with
  | nil =>
    intro i bd bs hex
    obtain ⟨x, hx, _⟩ := hex
    exact absurd hx (List.not_mem_nil x)
  | cons s rest ih =>
    intro i bd bs hex
    by_cases hs : bs < s
    · -- the head replaces the incumbent
      by_cases hrest : ∃ x ∈ rest, s < x
      · obtain ⟨k, hk, h1, h2, h3, h4, h5⟩ := ih (i + 1) (Int.ofNat i) s hrest
        refine ⟨k + 1, Nat.succ_lt_succ hk, ?_, ?_, ?_, ?_, ?_⟩
        · show (__lahar_pick_best (s :: rest) i (bd, bs)).1 = Int.ofNat (i + (k + 1))
          rw [__lahar_pick_best, if_pos hs]
          rw [h1]
          congr 1
          omega
        · show (__lahar_pick_best (s :: rest) i (bd, bs)).2 = _
          rw [__lahar_pick_best, if_pos hs]
          exact h2
        · exact lt_trans hs h3
        · intro m hm
          cases m with
          | zero => exact le_of_lt h3
          | succ n => exact h4 n (Nat.lt_of_succ_lt_succ hm)
        · intro m hm hmk
          cases m with
          | zero => exact Or.inl h3
          | succ n =>
            rcases h5 n (Nat.lt_of_succ_lt_succ hm) (Nat.lt_of_succ_lt_succ hmk) with h | h
            · exact Or.inl h
            · exact Or.inl (lt_of_le_of_lt h h3)
      · push_neg at hrest
        have hstay : __lahar_pick_best rest (i + 1) (Int.ofNat i, s) = (Int.ofNat i, s) :=
          pick_best_unchanged rest (i + 1) (Int.ofNat i) s hrest
        refine ⟨0, Nat.succ_pos rest.length, ?_, ?_, hs, ?_, ?_⟩
        · show (__lahar_pick_best (s :: rest) i (bd, bs)).1 = Int.ofNat (i + 0)
          rw [__lahar_pick_best, if_pos hs, hstay]
          congr 1
        · show (__lahar_pick_best (s :: rest) i (bd, bs)).2 = s
          rw [__lahar_pick_best, if_pos hs, hstay]
        · intro m hm
          cases m with
          | zero => exact le_refl s
          | succ n =>
            exact hrest (rest.get ⟨n, Nat.lt_of_succ_lt_succ hm⟩)
              (rest.get_mem _ _)
        · intro m _ hmk
          exact absurd hmk (Nat.not_lt_zero m)
    · -- the head does not beat the incumbent
      have hex' : ∃ x ∈ rest, bs < x := by
        obtain ⟨x, hx, hbs⟩ := hex
        rcases List.mem_cons.mp hx with rfl | hx'
        · exact absurd hbs hs
        · exact ⟨x, hx', hbs⟩
      obtain ⟨k, hk, h1, h2, h3, h4, h5⟩ := ih (i + 1) bd bs hex'
      refine ⟨k + 1, Nat.succ_lt_succ hk, ?_, ?_, h3, ?_, ?_⟩
      · show (__lahar_pick_best (s :: rest) i (bd, bs)).1 = Int.ofNat (i + (k + 1))
        rw [__lahar_pick_best, if_neg hs, h1]
        congr 1
        omega
      · show (__lahar_pick_best (s :: rest) i (bd, bs)).2 = _
        rw [__lahar_pick_best, if_neg hs]
        exact h2
      · intro m hm
        cases m with
        | zero => exact le_trans (not_lt.mp hs) (le_of_lt h3)
        | succ n => exact h4 n (Nat.lt_of_succ_lt_succ hm)
      · intro m hm hmk
        cases m with
        | zero => exact Or.inr (not_lt.mp hs)
        | succ n => exact h5 n (Nat.lt_of_succ_lt_succ hm) (Nat.lt_of_succ_lt_succ hmk)

/-- C6: (1) the default scorer returns -1 for every device lacking a
graphics or an all-surfaces present queue; (2) for every qualified device the
score is the type bonus (1000 discrete / 100 integrated / 0 otherwise) plus
50 for a shared queue family plus the device-local-memory bonus scaled so
that 100 GB contributes 1000; (3) any selected device is an enumerated
device with nonnegative score that no other device beats and that no earlier
device ties (so a disqualified device is never selected while a valid one
exists, and ties keep the first encountered); (4) selection succeeds whenever
some device scores nonnegatively. -/
theorem c6_default_scoring_and_selection :
    (∀ d : LaharDeviceInfo,
      (d.has_graphics_queue = false ∨ d.has_present_queue = false) →
      __lahar_default_scorer d = -1)
    ∧ (∀ d : LaharDeviceInfo,
        d.has_graphics_queue = true → d.has_present_queue = true →
        __lahar_default_scorer d =
          (if d.properties.deviceType = VK_PHYSICAL_DEVICE_TYPE_DISCRETE_GPU then (1000 : Int)
           else if d.properties.deviceType = VK_PHYSICAL_DEVICE_TYPE_INTEGRATED_GPU then 100
           else 0)
          + (if d.present_queue_index = d.graphics_queue_index then 50 else 0)
          + Int.ofNat (deviceLocalMemory d.memoryHeaps * 1000 / 107374182400))
    ∧ (∀ (name : Option String) (infos : List LaharDeviceInfo) (d : LaharDeviceInfo),
        __lahar_build_physdev true name none infos = Except.ok d →
        ∃ k, ∃ hk : k < infos.length,
          d = infos.get ⟨k, hk⟩
          ∧ 0 ≤ __lahar_default_scorer d
          ∧ (∀ m (hm : m < infos.length),
              __lahar_default_scorer (infos.get ⟨m, hm⟩) ≤ __lahar_default_scorer d)
          ∧ (∀ m (hm : m < infos.length), m < k →
              __lahar_default_scorer (infos.get ⟨m, hm⟩) < __lahar_default_scorer d))
    ∧ (∀ (name : Option String) (infos : List LaharDeviceInfo),
        (∃ m, ∃ hm : m < infos.length, 0 ≤ __lahar_default_scorer (infos.get ⟨m, hm⟩)) →
        ∃ d, __lahar_build_physdev true name none infos = Except.ok d) := by
  refine ⟨?_, ?_, ?_, ?_⟩
  · intro d hd
    rcases hd with h | h <;>
      simp [__lahar_default_scorer, h]
  · intro d hg hp
    simp only [__lahar_default_scorer, hg, hp]
    norm_num
    split_ifs <;> ring
  · intro name infos d hok
    have hok' :
        (if (__lahar_pick_best (infos.map __lahar_default_scorer) 0 (-1, -1)).1 = -1
          then (Except.error LAHAR_ERR_NO_SUITABLE_DEVICE : Except Nat LaharDeviceInfo)
          else Except.ok (infos.getD
            (__lahar_pick_best (infos.map __lahar_default_scorer) 0 (-1, -1)).1.toNat
            default)) = Except.ok d := hok
    by_cases hbest :
        (__lahar_pick_best (infos.map __lahar_default_scorer) 0 (-1, -1)).1 = -1
    · rw [if_pos hbest] at hok'
      exact Except.noConfusion hok'
    · rw [if_neg hbest] at hok'
      injection hok' with hd
      by_cases hex : ∃ x ∈ infos.map __lahar_default_scorer, (-1 : Int) < x
      · obtain ⟨k, hk, h1, h2, h3, h4, h5⟩ :=
          pick_best_found (infos.map __lahar_default_scorer) 0 (-1) (-1) hex
        have hk2 : k < infos.length := by simpa using hk
        have hget : (infos.map __lahar_default_scorer).get ⟨k, hk⟩
            = __lahar_default_scorer (infos.get ⟨k, hk2⟩) :=
          list_get_map __lahar_default_scorer infos k hk hk2
        have htonat :
            (__lahar_pick_best (infos.map __lahar_default_scorer) 0 (-1, -1)).1.toNat = k := by
          rw [h1]
          simp
        have hdval : d = infos.get ⟨k, hk2⟩ := by
          rw [← hd, htonat]
          exact list_getD_eq_get infos k default hk2
        refine ⟨k, hk2, hdval, ?_, ?_, ?_⟩
        · rw [hdval, ← hget]
          omega
        · intro m hm
          have hm' : m < (infos.map __lahar_default_scorer).length := by simpa using hm
          have := h4 m hm'
          rw [list_get_map __lahar_default_scorer infos m hm' hm, hget] at this
          rw [hdval]
          exact this
        · intro m hm hmk
          have hm' : m < (infos.map __lahar_default_scorer).length := by simpa using hm
          rcases h5 m hm' hmk with h | h
          · rw [list_get_map __lahar_default_scorer infos m hm' hm, hget] at h
            rw [hdval]
            exact h
          · rw [list_get_map __lahar_default_scorer infos m hm' hm] at h
            rw [hdval, ← hget]
            omega
      · push_neg at hex
        have := pick_best_unchanged (infos.map __lahar_default_scorer) 0 (-1) (-1) hex
        rw [this] at hbest
        exact absurd rfl hbest
  · intro name infos hex0
    obtain ⟨m, hm, hscore⟩ := hex0
    have hm' : m < (infos.map __lahar_default_scorer).length := by simpa using hm
    have hex : ∃ x ∈ infos.map __lahar_default_scorer, (-1 : Int) < x := by
      refine ⟨(infos.map __lahar_default_scorer).get ⟨m, hm'⟩, (infos.map _).get_mem _ _, ?_⟩
      rw [list_get_map __lahar_default_scorer infos m hm' hm]
      omega
    obtain ⟨k, hk, h1, _, _, _, _⟩ :=
      pick_best_found (infos.map __lahar_default_scorer) 0 (-1) (-1) hex
    have hne : ¬(__lahar_pick_best (infos.map __lahar_default_scorer) 0 (-1, -1)).1 = -1 := by
      rw [h1]
      simp
    refine ⟨infos.getD
      (__lahar_pick_best (infos.map __lahar_default_scorer) 0 (-1, -1)).1.toNat default, ?_⟩
    show (if (__lahar_pick_best (infos.map __lahar_default_scorer) 0 (-1, -1)).1 = -1
        then (Except.error LAHAR_ERR_NO_SUITABLE_DEVICE : Except Nat LaharDeviceInfo)
        else Except.ok (infos.getD
          (__lahar_pick_best (infos.map __lahar_default_scorer) 0 (-1, -1)).1.toNat
          default)) = _
    rw [if_neg hne]

/-- A device disqualified by the default scorer: no graphics queue. -/
def c6_bad_dev : LaharDeviceInfo :=
  { properties := { deviceType := VK_PHYSICAL_DEVICE_TYPE_DISCRETE_GPU, deviceName := "NoQueues" }
    memoryHeaps := [{ size := 4294967296, flags := VK_MEMORY_HEAP_DEVICE_LOCAL_BIT }]
    surface_formats := []
    present_modes := []
    graphics_queue_index := 0
    present_queue_index := 0
    has_graphics_queue := false
    has_present_queue := true }

/-- A qualified integrated GPU. -/
def c6_good_dev : LaharDeviceInfo :=
  { properties := { deviceType := VK_PHYSICAL_DEVICE_TYPE_INTEGRATED_GPU, deviceName := "IGPU" }
    memoryHeaps := [{ size := 2147483648, flags := VK_MEMORY_HEAP_DEVICE_LOCAL_BIT }]
    surface_formats := [(VK_FORMAT_B8G8R8A8_SRGB, VK_COLORSPACE_SRGB_NONLINEAR_KHR)]
    present_modes := [VK_PRESENT_MODE_FIFO_KHR]
    graphics_queue_index := 0
    present_queue_index := 0
    has_graphics_queue := true
    has_present_queue := true }

/-- Witness for C6: the disqualified device scores -1, and selection over a
list containing a nonnegative-scoring device succeeds. -/
theorem c6_default_scoring_and_selection_witness :
    __lahar_default_scorer c6_bad_dev = -1
    ∧ ∃ d, __lahar_build_physdev true none none [c6_good_dev] = Except.ok d :=
  ⟨c6_default_scoring_and_selection.1 c6_bad_dev (Or.inl rfl),
   c6_default_scoring_and_selection.2.2.2 none [c6_good_dev]
     ⟨0, Nat.one_pos, by decide⟩⟩

/-! ### Frame state machine step lemmas -/

theorem submit_all_wrong_phase (lahar : Lahar) (window i cmd_count : Nat)
    (ws : LaharWindowState) (ok : Bool)
    (hfind : lahar_window_state_idx lahar window = some i)
    (hws : lahar.windows.getD i default = ws)
    (hw : window ≠ 0) (hcc : cmd_count ≠ 0)
    (hphase : ws.frame_phase ≠ LaharFramePhase.DRAW) :
    lahar_window_submit_all lahar window false cmd_count ok
      = (LAHAR_ERR_INVALID_FRAME_STATE, lahar) := by
  have hws2 : lahar.windows[i]?.getD default = ws := by
    rw [← List.getD_eq_getElem?_getD]
    exact hws
  simp [lahar_window_submit_all, hfind, hws2, hw, hcc, hphase]

theorem submit_all_draw (lahar : Lahar) (window i cmd_count : Nat)
    (ws : LaharWindowState)
    (hfind : lahar_window_state_idx lahar window = some i)
    (hws : lahar.windows.getD i default = ws)
    (hw : window ≠ 0) (hcc : cmd_count ≠ 0)
    (hphase : ws.frame_phase = LaharFramePhase.DRAW) :
    lahar_window_submit_all lahar window false cmd_count true
      = (LAHAR_ERR_SUCCESS,
         lahar.setWindow i { ws with frame_phase := LaharFramePhase.PRESENT }) := by
  have hws2 : lahar.windows[i]?.getD default = ws := by
    rw [← List.getD_eq_getElem?_getD]
    exact hws
  simp [lahar_window_submit_all, hfind, hws2, hw, hcc, hphase]

theorem present_phase_begin (lahar : Lahar) (window i : Nat)
    (ws : LaharWindowState) (ok : Bool)
    (hfind : lahar_window_state_idx lahar window = some i)
    (hws : lahar.windows.getD i default = ws)
    (hphase : ws.frame_phase = LaharFramePhase.BEGIN) :
    lahar_window_present lahar window ok = (LAHAR_ERR_INVALID_FRAME_STATE, lahar) := by
  have hws2 : lahar.windows[i]?.getD default = ws := by
    rw [← List.getD_eq_getElem?_getD]
    exact hws
  simp [lahar_window_present, hfind, hws2, hphase]

theorem present_phase_draw (lahar : Lahar) (window i : Nat)
    (ws : LaharWindowState) (ok : Bool)
    (hfind : lahar_window_state_idx lahar window = some i)
    (hws : lahar.windows.getD i default = ws)
    (hphase : ws.frame_phase = LaharFramePhase.DRAW) :
    lahar_window_present lahar window ok = (LAHAR_ERR_NO_COMMAND_BUFFER, lahar) := by
  have hws2 : lahar.windows[i]?.getD default = ws := by
    rw [← List.getD_eq_getElem?_getD]
    exact hws
  simp [lahar_window_present, hfind, hws2, hphase]

theorem present_phase_present (lahar : Lahar) (window i : Nat)
    (ws : LaharWindowState)
    (hfind : lahar_window_state_idx lahar window = some i)
    (hws : lahar.windows.getD i default = ws)
    (hphase : ws.frame_phase = LaharFramePhase.PRESENT) :
    lahar_window_present lahar window true
      = (LAHAR_ERR_SUCCESS,
         lahar.setWindow i
          { ws with
            flight_index := (ws.flight_index + 1) % ws.max_in_flight
            frame_phase := LaharFramePhase.BEGIN }) := by
  have hws2 : lahar.windows[i]?.getD default = ws := by
    rw [← List.getD_eq_getElem?_getD]
    exact hws
  simp [lahar_window_present, hfind, hws2, hphase]

theorem frame_begin_acquire_ok (lahar : Lahar) (window i idx : Nat)
    (ws : LaharWindowState) (acqs : List LaharAcquireOutcome)
    (ros : List LaharSwapOracle)
    (hfind : lahar_window_state_idx lahar window = some i)
    (hws : lahar.windows.getD i default = ws)
    (hw : window ≠ 0)
    (hphase : ws.frame_phase = LaharFramePhase.BEGIN) :
    lahar_window_frame_begin lahar window
        ({ res := VK_SUCCESS, image_index := idx } :: acqs) ros
      = (LAHAR_ERR_SUCCESS,
         (lahar.setWindow i { ws with frame_index := idx }).setWindow i
           { ws with frame_index := idx, frame_phase := LaharFramePhase.DRAW }) := by
  have hws2 : lahar.windows[i]?.getD default = ws := by
    rw [← List.getD_eq_getElem?_getD]
    exact hws
  simp [lahar_window_frame_begin, hfind, hws2, hw, hphase,
    VK_SUCCESS, VK_SUBOPTIMAL_KHR, VK_ERROR_OUT_OF_DATE_KHR]

/-! ### C4: frame-state-machine error codes -/

/-- C4: with legal parameters and a registered window, submitting while the
frame phase is BEGIN or PRESENT fails with LAHAR_ERR_INVALID_FRAME_STATE
(both for lahar_window_submit_all and lahar_window_submit); presenting while
the phase is DRAW fails with LAHAR_ERR_NO_COMMAND_BUFFER; presenting while
the phase is BEGIN fails with LAHAR_ERR_INVALID_FRAME_STATE. -/
theorem c4_frame_state_machine_errors (lahar : Lahar) (window i : Nat)
    (ws : LaharWindowState)
    (hfind : lahar_window_state_idx lahar window = some i)
    (hws : lahar.windows.getD i default = ws)
    (hw : window ≠ 0) :
    ((ws.frame_phase = LaharFramePhase.BEGIN ∨ ws.frame_phase = LaharFramePhase.PRESENT) →
      (∀ (cmd_count : Nat) (ok : Bool), cmd_count ≠ 0 →
        (lahar_window_submit_all lahar window false cmd_count ok).1
          = LAHAR_ERR_INVALID_FRAME_STATE)
      ∧ (∀ ok : Bool,
          (lahar_window_submit lahar window ok).1 = LAHAR_ERR_INVALID_FRAME_STATE))
    ∧ (ws.frame_phase = LaharFramePhase.DRAW →
        ∀ ok : Bool,
          (lahar_window_present lahar window ok).1 = LAHAR_ERR_NO_COMMAND_BUFFER)
    ∧ (ws.frame_phase = LaharFramePhase.BEGIN →
        ∀ ok : Bool,
          (lahar_window_present lahar window ok).1 = LAHAR_ERR_INVALID_FRAME_STATE) := by
  refine ⟨?_, ?_, ?_⟩
  · intro hphase
    have hne : ws.frame_phase ≠ LaharFramePhase.DRAW := by
      rcases hphase with h | h <;> rw [h] <;> intro hc <;> exact LaharFramePhase.noConfusion hc
    constructor
    · intro cmd_count ok hcc
      rw [submit_all_wrong_phase lahar window i cmd_count ws ok hfind hws hw hcc hne]
    · intro ok
      rw [lahar_window_submit,
        submit_all_wrong_phase lahar window i 1 ws ok hfind hws hw Nat.one_ne_zero hne]
  · intro hphase ok
    rw [present_phase_draw lahar window i ws ok hfind hws hphase]
  · intro hphase ok
    rw [present_phase_begin lahar window i ws ok hfind hws hphase]

/-- A registered window (handle 7) sitting in the BEGIN phase. -/
def c4_window_state : LaharWindowState :=
  { window := 7, width := 800, height := 600, desired_img_count := 2, max_in_flight := 2
    frame_phase := LaharFramePhase.BEGIN, alpha := 1, auto_recreate_swap := true
    surface_format := (VK_FORMAT_B8G8R8A8_SRGB, VK_COLORSPACE_SRGB_NONLINEAR_KHR)
    swap_size := 2, flight_index := 0, frame_index := 0
    attachment_count := 1
    attachment_configs := [{ usage := 0 }]
    attachments := [[default, default]] }

def c4_lahar : Lahar :=
  { wantcommands := false, gpu_allocator := false, device_name := none,
    physdev_info := default, windows := [c4_window_state], extensions := default }

/-- Witness for C4 at a concrete window in the BEGIN phase. -/
theorem c4_frame_state_machine_errors_witness :
    (lahar_window_submit_all c4_lahar 7 false 1 true).1 = LAHAR_ERR_INVALID_FRAME_STATE
    ∧ (lahar_window_present c4_lahar 7 true).1 = LAHAR_ERR_INVALID_FRAME_STATE :=
  ⟨((c4_frame_state_machine_errors c4_lahar 7 0 c4_window_state rfl rfl (by decide)).1
      (Or.inl rfl)).1 1 true (by decide),
   (c4_frame_state_machine_errors c4_lahar 7 0 c4_window_state rfl rfl (by decide)).2.2
      rfl true⟩

/-! ### C5: the full begin-submit-present cycle -/

/-- C5: from the BEGIN phase, a frame_begin whose image acquisition succeeds,
followed by a successful submit and a successful present, returns the window
to the BEGIN phase with the flight index advanced by exactly one modulo
max_in_flight (and the frame index set by the acquisition). -/
theorem c5_begin_submit_present_cycle (lahar : Lahar) (window i idx : Nat)
    (ws : LaharWindowState) (acqs : List LaharAcquireOutcome)
    (ros : List LaharSwapOracle)
    (hfind : lahar_window_state_idx lahar window = some i)
    (hws : lahar.windows.getD i default = ws)
    (hw : window ≠ 0)
    (hphase : ws.frame_phase = LaharFramePhase.BEGIN) :
    (lahar_window_frame_begin lahar window
        ({ res := VK_SUCCESS, image_index := idx } :: acqs) ros).1 = LAHAR_ERR_SUCCESS
    ∧ (lahar_window_submit_all
        (lahar_window_frame_begin lahar window
          ({ res := VK_SUCCESS, image_index := idx } :: acqs) ros).2
        window false 1 true).1 = LAHAR_ERR_SUCCESS
    ∧ (lahar_window_present
        (lahar_window_submit_all
          (lahar_window_frame_begin lahar window
            ({ res := VK_SUCCESS, image_index := idx } :: acqs) ros).2
          window false 1 true).2
        window true).1 = LAHAR_ERR_SUCCESS
    ∧ (((lahar_window_present
          (lahar_window_submit_all
            (lahar_window_frame_begin lahar window
              ({ res := VK_SUCCESS, image_index := idx } :: acqs) ros).2
            window false 1 true).2
          window true).2.windows.getD i default).frame_phase = LaharFramePhase.BEGIN
        ∧ ((lahar_window_present
            (lahar_window_submit_all
              (lahar_window_frame_begin lahar window
                ({ res := VK_SUCCESS, image_index := idx } :: acqs) ros).2
              window false 1 true).2
            window true).2.windows.getD i default).flight_index
          = (ws.flight_index + 1) % ws.max_in_flight
        ∧ ((lahar_window_present
            (lahar_window_submit_all
              (lahar_window_frame_begin lahar window
                ({ res := VK_SUCCESS, image_index := idx } :: acqs) ros).2
              window false 1 true).2
            window true).2.windows.getD i default).frame_index = idx) := by
  have hwindow : ws.window = window := by
    rw [← hws]
    exact find_window_get lahar.windows window i default hfind
  have hlen : i < lahar.windows.length := find_window_lt_length lahar.windows window i hfind
  -- step 1: frame_begin
  have h1 := frame_begin_acquire_ok lahar window i idx ws acqs ros hfind hws hw hphase
  rw [h1]
  -- the state after frame_begin
  have hfind1 : lahar_window_state_idx
      ((lahar.setWindow i { ws with frame_index := idx }).setWindow i
        { ws with frame_index := idx, frame_phase := LaharFramePhase.DRAW }) window
      = some i := by
    exact find_window_set _ window i _
      (find_window_set _ window i _ hfind hwindow) hwindow
  have hlen1 : i < ((lahar.setWindow i { ws with frame_index := idx }).setWindow i
      { ws with frame_index := idx, frame_phase := LaharFramePhase.DRAW }).windows.length := by
    simp only [Lahar.setWindow, List.length_set]
    exact hlen
  have hws1 : ((lahar.setWindow i { ws with frame_index := idx }).setWindow i
      { ws with frame_index := idx, frame_phase := LaharFramePhase.DRAW }).windows.getD i default
      = { ws with frame_index := idx, frame_phase := LaharFramePhase.DRAW } := by
    exact list_getD_set_self _ i _ default (by simpa [Lahar.setWindow] using hlen)
  -- step 2: submit
  have h2 := submit_all_draw
    ((lahar.setWindow i { ws with frame_index := idx }).setWindow i
      { ws with frame_index := idx, frame_phase := LaharFramePhase.DRAW })
    window i 1 { ws with frame_index := idx, frame_phase := LaharFramePhase.DRAW }
    hfind1 hws1 hw Nat.one_ne_zero rfl
  rw [h2]
  -- the state after submit
  have hfind2 : lahar_window_state_idx
      (((lahar.setWindow i { ws with frame_index := idx }).setWindow i
        { ws with frame_index := idx, frame_phase := LaharFramePhase.DRAW }).setWindow i
        { ws with frame_index := idx, frame_phase := LaharFramePhase.PRESENT }) window
      = some i := by
    exact find_window_set _ window i _ hfind1 hwindow
  have hws2 : (((lahar.setWindow i { ws with frame_index := idx }).setWindow i
      { ws with frame_index := idx, frame_phase := LaharFramePhase.DRAW }).setWindow i
      { ws with frame_index := idx, frame_phase := LaharFramePhase.PRESENT }).windows.getD i default
      = { ws with frame_index := idx, frame_phase := LaharFramePhase.PRESENT } := by
    exact list_getD_set_self _ i _ default (by simpa [Lahar.setWindow] using hlen)
  -- step 3: present
  have h3 := present_phase_present
    (((lahar.setWindow i { ws with frame_index := idx }).setWindow i
      { ws with frame_index := idx, frame_phase := LaharFramePhase.DRAW }).setWindow i
      { ws with frame_index := idx, frame_phase := LaharFramePhase.PRESENT })
    window i { ws with frame_index := idx, frame_phase := LaharFramePhase.PRESENT }
    hfind2 hws2 rfl
  rw [h3]
  refine ⟨rfl, rfl, rfl, ?_, ?_, ?_⟩ <;>
    · simp only [Lahar.setWindow]
      rw [list_getD_set_self _ i _ default (by simp only [List.length_set]; exact hlen)]

def c5_window_state : LaharWindowState :=
  { window := 7, width := 800, height := 600, desired_img_count := 2, max_in_flight := 2
    frame_phase := LaharFramePhase.BEGIN, alpha := 1, auto_recreate_swap := true
    surface_format := (VK_FORMAT_B8G8R8A8_SRGB, VK_COLORSPACE_SRGB_NONLINEAR_KHR)
    swap_size := 2, flight_index := 0, frame_index := 0
    attachment_count := 1
    attachment_configs := [{ usage := 0 }]
    attachments := [[default, default]] }

def c5_lahar : Lahar :=
  { wantcommands := false, gpu_allocator := false, device_name := none,
    physdev_info := default, windows := [c5_window_state], extensions := default }

/-- Witness for C5: one concrete cycle from flight index 0 with
max_in_flight = 2 succeeds and lands on flight index 1. -/
theorem c5_begin_submit_present_cycle_witness :
    (lahar_window_frame_begin c5_lahar 7
        [{ res := VK_SUCCESS, image_index := 1 }] []).1 = LAHAR_ERR_SUCCESS
    ∧ ((lahar_window_present
          (lahar_window_submit_all
            (lahar_window_frame_begin c5_lahar 7
              [{ res := VK_SUCCESS, image_index := 1 }] []).2
            7 false 1 true).2
          7 true).2.windows.getD 0 default).flight_index
        = (c5_window_state.flight_index + 1) % c5_window_state.max_in_flight :=
  ⟨(c5_begin_submit_present_cycle c5_lahar 7 0 1 c5_window_state [] []
      rfl rfl (by decide) rfl).1,
   (c5_begin_submit_present_cycle c5_lahar 7 0 1 c5_window_state [] []
      rfl rfl (by decide) rfl).2.2.2.2.1⟩

/-! ### C7: default normalization of image counts -/

theorem list_getD_append_self {α : Type} :
    ∀ (l : List α) (a d : α), (l ++ [a]).getD l.length d = a := by
  intro l
  induction l with
  | nil => intro a d; rfl
  | cons b t ih => intro a d; exact ih a d

theorem norm_desired_count (ws : LaharWindowState) :
    (__lahar_norm_desired ws).desired_img_count =
      (if ws.desired_img_count = 0 then 2 else ws.desired_img_count) := by
  unfold __lahar_norm_desired
  by_cases h : ws.desired_img_count = 0 <;> simp [h]

/-- Every swapchain created by the first-build path uses the clamp of the
normalized desired image count. -/
theorem build_swapchain_window_record (lahar : Lahar) (i : Nat) (o : LaharSwapOracle) :
    ∀ r ∈ (__lahar_build_swapchain_window lahar i o).2.2,
      r.minImageCount = __lahar_clamp_image_count o.caps
        (if (lahar.windows.getD i default).desired_img_count = 0 then 2
         else (lahar.windows.getD i default).desired_img_count) := by
  intro r hr
  unfold __lahar_build_swapchain_window at hr
  repeat' split at hr
  all_goals
    first
      | exact absurd hr (List.not_mem_nil r)
      | (simp only [List.mem_singleton] at hr
         subst hr
         simp [__lahar_swap_create_record, norm_desired_count])

/-- Every swapchain created by the recreation path uses the clamp of the
normalized desired image count. -/
theorem resizer_record (lahar : Lahar) (window i : Nat) (o : LaharSwapOracle)
    (hfind : lahar_window_state_idx lahar window = some i) :
    ∀ r ∈ (__lahar_default_resizer lahar window o).2.2,
      r.minImageCount = __lahar_clamp_image_count o.caps
        (if (lahar.windows.getD i default).desired_img_count = 0 then 2
         else (lahar.windows.getD i default).desired_img_count) := by
  intro r hr
  simp only [__lahar_default_resizer, hfind] at hr
  repeat' split at hr
  all_goals
    first
      | exact absurd hr (List.not_mem_nil r)
      | (simp only [List.mem_singleton] at hr
         subst hr
         simp [__lahar_swap_create_record, norm_desired_count])

/-- C7: (1) registration replaces a zero desired_img_count and a zero
max_in_flight with 2 (and keeps nonzero values), so max_in_flight is 2 after
registration whenever the caller left it unset; (2) and (3) every
vkCreateSwapchainKHR call issued by the first-build path and by the
recreation path uses the (capability-clamped) desired image count normalized
from 0 to 2. -/
theorem c7_image_count_defaults :
    (∀ (lahar : Lahar) (window : Nat) (winconf : LaharWindowConfig) (size : Nat × Nat),
      window ≠ 0 → winconf.attachment_count ≠ 0 →
      (lahar_builder_window_register_ex lahar window winconf size).1 = LAHAR_ERR_SUCCESS
      ∧ ((lahar_builder_window_register_ex lahar window winconf size).2.windows.getD
          lahar.windows.length default).max_in_flight
        = (if winconf.max_in_flight = 0 then 2 else winconf.max_in_flight)
      ∧ ((lahar_builder_window_register_ex lahar window winconf size).2.windows.getD
          lahar.windows.length default).desired_img_count
        = (if winconf.desired_swap_size = 0 then 2 else winconf.desired_swap_size))
    ∧ (∀ (lahar : Lahar) (i : Nat) (o : LaharSwapOracle),
        ∀ r ∈ (__lahar_build_swapchain_window lahar i o).2.2,
          r.minImageCount = __lahar_clamp_image_count o.caps
            (if (lahar.windows.getD i default).desired_img_count = 0 then 2
             else (lahar.windows.getD i default).desired_img_count))
    ∧ (∀ (lahar : Lahar) (window i : Nat) (o : LaharSwapOracle),
        lahar_window_state_idx lahar window = some i →
        ∀ r ∈ (__lahar_default_resizer lahar window o).2.2,
          r.minImageCount = __lahar_clamp_image_count o.caps
            (if (lahar.windows.getD i default).desired_img_count = 0 then 2
             else (lahar.windows.getD i default).desired_img_count)) := by
  refine ⟨?_, build_swapchain_window_record, resizer_record⟩
  intro lahar window winconf size hw hatt
  have hcond : ¬(window = 0 ∨ winconf.attachment_count = 0) := by
    intro h
    rcases h with h | h
    · exact hw h
    · exact hatt h
  unfold lahar_builder_window_register_ex
  rw [if_neg hcond]
  refine ⟨rfl, ?_, ?_⟩ <;>
    · rw [list_getD_append_self]
      by_cases h0 : winconf.max_in_flight = 0 <;>
        by_cases h1 : winconf.desired_swap_size = 0 <;>
        simp [h0, h1]

def c7_winconf : LaharWindowConfig :=
  { attachment_count := 1, attachments := [{ usage := 0 }], desired_swap_size := 0,
    max_in_flight := 0, alpha := 0, no_auto_swap_resize := false }

def c7_lahar0 : Lahar :=
  { wantcommands := false, gpu_allocator := false, device_name := none,
    physdev_info := default, windows := [], extensions := default }

/-- Witness for C7: registering with both counts left at zero yields a window
with desired_img_count = 2 and max_in_flight = 2. -/
theorem c7_image_count_defaults_witness :
    ((lahar_builder_window_register_ex c7_lahar0 7 c7_winconf (640, 480)).2.windows.getD
        0 default).max_in_flight = (if c7_winconf.max_in_flight = 0 then 2
          else c7_winconf.max_in_flight) :=
  (c7_image_count_defaults.1 c7_lahar0 7 c7_winconf (640, 480)
    (by decide) (by decide)).2.1

/-! ### C9: idempotence of the attachment transition -/

theorem transition_noop (lahar : Lahar) (window i ai layout cmd : Nat)
    (ws : LaharWindowState)
    (hfind : lahar_window_state_idx lahar window = some i)
    (hws : lahar.windows.getD i default = ws)
    (hw : window ≠ 0) (hcmd : cmd ≠ 0)
    (hai : ai < ws.attachment_count)
    (hlay : ((ws.attachments.getD ai []).getD ws.frame_index default).layout = layout) :
    lahar_window_attachment_transition lahar window ai layout cmd
      = (LAHAR_ERR_SUCCESS, lahar, none) := by
  have hws2 : lahar.windows[i]?.getD default = ws := by
    rw [← List.getD_eq_getElem?_getD]
    exact hws
  have hnot : ¬ai ≥ ws.attachment_count := Nat.not_le.mpr hai
  have hlay2 : ((ws.attachments[ai]?.getD [])[ws.frame_index]?.getD default).layout
      = layout := by
    rw [← List.getD_eq_getElem?_getD, ← List.getD_eq_getElem?_getD]
    exact hlay
  simp [lahar_window_attachment_transition, hfind, hws2, hw, hcmd, hnot, hlay2]

theorem transition_update (lahar : Lahar) (window i ai layout cmd : Nat)
    (ws : LaharWindowState)
    (hfind : lahar_window_state_idx lahar window = some i)
    (hws : lahar.windows.getD i default = ws)
    (hw : window ≠ 0) (hcmd : cmd ≠ 0)
    (hai : ai < ws.attachment_count)
    (hlay : ((ws.attachments.getD ai []).getD ws.frame_index default).layout ≠ layout) :
    (lahar_window_attachment_transition lahar window ai layout cmd).1 = LAHAR_ERR_SUCCESS
    ∧ (lahar_window_attachment_transition lahar window ai layout cmd).2.1
      = lahar.setWindow i
          { ws with
            attachments := ws.attachments.set ai
              ((ws.attachments.getD ai []).set ws.frame_index
                { (ws.attachments.getD ai []).getD ws.frame_index default with
                  layout := layout }) }
    ∧ (lahar_window_attachment_transition lahar window ai layout cmd).2.2 ≠ none := by
  have hws2 : lahar.windows[i]?.getD default = ws := by
    rw [← List.getD_eq_getElem?_getD]
    exact hws
  have hnot : ¬ai ≥ ws.attachment_count := Nat.not_le.mpr hai
  have hlay2 : ¬((ws.attachments[ai]?.getD [])[ws.frame_index]?.getD default).layout
      = layout := by
    rw [← List.getD_eq_getElem?_getD, ← List.getD_eq_getElem?_getD]
    exact hlay
  refine ⟨?_, ?_, ?_⟩ <;>
    simp [lahar_window_attachment_transition, hfind, hws2, hw, hcmd, hnot, hlay2]

/-- C9: transitioning the same (window, attachment, frame) to the same target
layout twice is idempotent — the second call succeeds, records no barrier,
and leaves the state exactly as after the first call; the first call records
a barrier and stores the target layout precisely when the recorded layout
differed, and is itself a no-op when the layout already matched. -/
theorem c9_transition_idempotent (lahar : Lahar) (window i ai layout cmd : Nat)
    (ws : LaharWindowState)
    (hfind : lahar_window_state_idx lahar window = some i)
    (hws : lahar.windows.getD i default = ws)
    (hw : window ≠ 0) (hcmd : cmd ≠ 0)
    (hai : ai < ws.attachment_count)
    (halen : ai < ws.attachments.length)
    (hflen : ws.frame_index < (ws.attachments.getD ai []).length) :
    (lahar_window_attachment_transition lahar window ai layout cmd).1 = LAHAR_ERR_SUCCESS
    ∧ (lahar_window_attachment_transition
        (lahar_window_attachment_transition lahar window ai layout cmd).2.1
        window ai layout cmd).1 = LAHAR_ERR_SUCCESS
    ∧ (lahar_window_attachment_transition
        (lahar_window_attachment_transition lahar window ai layout cmd).2.1
        window ai layout cmd).2.1
      = (lahar_window_attachment_transition lahar window ai layout cmd).2.1
    ∧ (lahar_window_attachment_transition
        (lahar_window_attachment_transition lahar window ai layout cmd).2.1
        window ai layout cmd).2.2 = none
    ∧ (((ws.attachments.getD ai []).getD ws.frame_index default).layout ≠ layout →
        (lahar_window_attachment_transition lahar window ai layout cmd).2.2 ≠ none
        ∧ ((((lahar_window_attachment_transition lahar window ai layout cmd).2.1).windows.getD
              i default).attachments.getD ai []).getD ws.frame_index default
            = { (ws.attachments.getD ai []).getD ws.frame_index default with layout := layout })
    ∧ (((ws.attachments.getD ai []).getD ws.frame_index default).layout = layout →
        (lahar_window_attachment_transition lahar window ai layout cmd).2.1 = lahar
        ∧ (lahar_window_attachment_transition lahar window ai layout cmd).2.2 = none) := by
  have hwindow : ws.window = window := by
    rw [← hws]
    exact find_window_get lahar.windows window i default hfind
  have hlen : i < lahar.windows.length := find_window_lt_length lahar.windows window i hfind
  by_cases hlay : ((ws.attachments.getD ai []).getD ws.frame_index default).layout = layout
  · have h1 := transition_noop lahar window i ai layout cmd ws hfind hws hw hcmd hai hlay
    rw [h1]
    exact ⟨rfl, by rw [h1], by rw [h1], by rw [h1],
      fun hc => absurd hlay hc, fun _ => ⟨rfl, rfl⟩⟩
  · obtain ⟨h2a, h2b, h2c⟩ :=
      transition_update lahar window i ai layout cmd ws hfind hws hw hcmd hai hlay
    -- the state after the first call
    have hfind1 : lahar_window_state_idx
        (lahar.setWindow i
          { ws with
            attachments := ws.attachments.set ai
              ((ws.attachments.getD ai []).set ws.frame_index
                { (ws.attachments.getD ai []).getD ws.frame_index default with
                  layout := layout }) }) window = some i :=
      find_window_set lahar.windows window i _ hfind hwindow
    have hws1 : (lahar.setWindow i
        { ws with
          attachments := ws.attachments.set ai
            ((ws.attachments.getD ai []).set ws.frame_index
              { (ws.attachments.getD ai []).getD ws.frame_index default with
                layout := layout }) }).windows.getD i default
        = { ws with
            attachments := ws.attachments.set ai
              ((ws.attachments.getD ai []).set ws.frame_index
                { (ws.attachments.getD ai []).getD ws.frame_index default with
                  layout := layout }) } := by
      simp only [Lahar.setWindow]
      exact list_getD_set_self lahar.windows i _ default hlen
    have hrow : ({ ws with
        attachments := ws.attachments.set ai
          ((ws.attachments.getD ai []).set ws.frame_index
            { (ws.attachments.getD ai []).getD ws.frame_index default with
              layout := layout }) } : LaharWindowState).attachments.getD ai []
        = (ws.attachments.getD ai []).set ws.frame_index
            { (ws.attachments.getD ai []).getD ws.frame_index default with
              layout := layout } :=
      list_getD_set_self ws.attachments ai _ [] halen
    have hatt : ((ws.attachments.getD ai []).set ws.frame_index
        { (ws.attachments.getD ai []).getD ws.frame_index default with
          layout := layout }).getD ws.frame_index default
        = { (ws.attachments.getD ai []).getD ws.frame_index default with
            layout := layout } :=
      list_getD_set_self (ws.attachments.getD ai []) ws.frame_index _ default hflen
    have hnoop := transition_noop
      (lahar.setWindow i
        { ws with
          attachments := ws.attachments.set ai
            ((ws.attachments.getD ai []).set ws.frame_index
              { (ws.attachments.getD ai []).getD ws.frame_index default with
                layout := layout }) }) window i ai layout cmd
      _ hfind1 hws1 hw hcmd hai
      (by rw [hrow, hatt])
    refine ⟨h2a, ?_, ?_, ?_, fun _ => ⟨h2c, ?_⟩, fun hc => absurd hc hlay⟩
    · rw [h2b, hnoop]
    · rw [h2b, hnoop]
    · rw [h2b, hnoop]
    · rw [h2b, hws1, hrow, hatt]

def c9_window_state : LaharWindowState :=
  { window := 7, width := 800, height := 600, desired_img_count := 2, max_in_flight := 2
    frame_phase := LaharFramePhase.DRAW, alpha := 1, auto_recreate_swap := true
    surface_format := (VK_FORMAT_B8G8R8A8_SRGB, VK_COLORSPACE_SRGB_NONLINEAR_KHR)
    swap_size := 2, flight_index := 0, frame_index := 0
    attachment_count := 1
    attachment_configs := [{ usage := 0 }]
    attachments :=
      [[{ img_allocation := 0, image := 31, view := 41,
          layout := VK_IMAGE_LAYOUT_COLOR_ATTACHMENT_OPTIMAL },
        { img_allocation := 0, image := 32, view := 42,
          layout := VK_IMAGE_LAYOUT_COLOR_ATTACHMENT_OPTIMAL }]] }

def c9_lahar : Lahar :=
  { wantcommands := false, gpu_allocator := false, device_name := none,
    physdev_info := default, windows := [c9_window_state], extensions := default }

/-- Witness for C9 at a concrete window: the double transition succeeds and
the second call records no barrier. -/
theorem c9_transition_idempotent_witness :
    (lahar_window_attachment_transition c9_lahar 7 0
        VK_IMAGE_LAYOUT_PRESENT_SRC_KHR 5).1 = LAHAR_ERR_SUCCESS
    ∧ (lahar_window_attachment_transition
        (lahar_window_attachment_transition c9_lahar 7 0
          VK_IMAGE_LAYOUT_PRESENT_SRC_KHR 5).2.1
        7 0 VK_IMAGE_LAYOUT_PRESENT_SRC_KHR 5).2.2 = none :=
  ⟨(c9_transition_idempotent c9_lahar 7 0 0 VK_IMAGE_LAYOUT_PRESENT_SRC_KHR 5
      c9_window_state rfl rfl (by decide) (by decide) (by decide) (by decide)
      (by decide)).1,
   (c9_transition_idempotent c9_lahar 7 0 0 VK_IMAGE_LAYOUT_PRESENT_SRC_KHR 5
      c9_window_state rfl rfl (by decide) (by decide) (by decide) (by decide)
      (by decide)).2.2.2.1⟩

/-! ### C8: device-extension lookup -/

def c8_lahar0 : Lahar :=
  { wantcommands := false, gpu_allocator := false, device_name := none,
    physdev_info := default, windows := [], extensions := default }

def c8_oracle : LaharDeviceBuildOracle :=
  { create_device_ok := true, load_device_err := 0, create_pool_ok := true }

/-- C8 counterexample: a name registered both as a required and as an
optional device extension.  The optional lookup takes precedence and returns
the granted flag, which stays false (the logical-device build performs no
optional-device negotiation), so lahar_extension_has_device returns false for
a name in the required-device list — contradicting the claim. -/
theorem c8_required_name_shadowed :
    lahar_extension_has_device
      (__lahar_build_device
        (lahar_builder_extension_add_optional_device
          (lahar_builder_extension_add_required_device c8_lahar0 ("VK_EXT_x")).2
          ("VK_EXT_x")).2
        c8_oracle).2
      ("VK_EXT_x") = false := rfl

/-- C8 (amended): the logical-device build never touches the extension
registry; lahar_extension_has_device returns the granted flag of the first
matching optional-device entry when one exists, the required-device
membership otherwise (true for a required name not shadowed by an optional
entry, false for a name in neither list); and registering an optional device
extension appends a false granted flag. -/
theorem c8_has_device_spec (lahar : Lahar) (ext : String)
    (o : LaharDeviceBuildOracle) :
    ((__lahar_build_device lahar o).2.extensions = lahar.extensions)
    ∧ (∀ b, __lahar_opt_present_lookup lahar.extensions.opt_dev_exts
          lahar.extensions.opt_dev_exts_present ext = some b →
        lahar_extension_has_device lahar ext = b)
    ∧ (__lahar_opt_present_lookup lahar.extensions.opt_dev_exts
          lahar.extensions.opt_dev_exts_present ext = none →
        lahar_extension_has_device lahar ext
          = lahar.extensions.req_dev_exts.contains ext)
    ∧ ((lahar_builder_extension_add_optional_device lahar ext).2.extensions.opt_dev_exts_present
        = lahar.extensions.opt_dev_exts_present ++ [false]) := by
  refine ⟨?_, ?_, ?_, rfl⟩
  · unfold __lahar_build_device
    split
    · rfl
    · split
      · rfl
      · split <;> rfl
  · intro b hb
    unfold lahar_extension_has_device
    rw [hb]
  · intro hb
    unfold lahar_extension_has_device
    rw [hb]

def c8w_lahar : Lahar :=
  { wantcommands := false, gpu_allocator := false, device_name := none,
    physdev_info := default, windows := [],
    extensions :=
      { req_inst_exts := [], req_dev_exts := ["VK_KHR_swapchain"],
        opt_inst_exts := [], opt_inst_exts_present := [],
        opt_dev_exts := ["VK_EXT_mesh"], opt_dev_exts_present := [false] } }

/-- Witness for C8 (amended): a required-only name resolves through the
required list, and the optional name returns its (false) granted flag. -/
theorem c8_has_device_spec_witness :
    (__lahar_opt_present_lookup c8w_lahar.extensions.opt_dev_exts
        c8w_lahar.extensions.opt_dev_exts_present ("VK_KHR_swapchain") = none)
    ∧ lahar_extension_has_device c8w_lahar ("VK_KHR_swapchain")
        = c8w_lahar.extensions.req_dev_exts.contains ("VK_KHR_swapchain")
    ∧ lahar_extension_has_device c8w_lahar ("VK_EXT_mesh") = false :=
  ⟨rfl,
   (c8_has_device_spec c8w_lahar ("VK_KHR_swapchain") c8_oracle).2.2.1 rfl,
   (c8_has_device_spec c8w_lahar ("VK_EXT_mesh") c8_oracle).2.1 false rfl⟩

/-! ### C10: phase/window/parameter errors leave the frame state untouched -/

/-- The error codes C10 is about: wrong frame phase, unknown window, missing
command buffer, illegal parameters. -/
def isFrameStateErr (e : Nat) : Prop :=
  e = LAHAR_ERR_ILLEGAL_PARAMS ∨ e = LAHAR_ERR_INVALID_WINDOW
    ∨ e = LAHAR_ERR_NO_COMMAND_BUFFER ∨ e = LAHAR_ERR_INVALID_FRAME_STATE

instance (e : Nat) : Decidable (isFrameStateErr e) := by
  unfold isFrameStateErr
  infer_instance

/-- A user allocator is benign when its failure codes do not impersonate the
frame-state error codes (the codes belong to lahar, not to the allocator). -/
def LaharSwapOracle.benign (o : LaharSwapOracle) : Prop :=
  ∀ e : Nat, Except.error e ∈ o.alloc_results → ¬isFrameStateErr e

theorem default_oracle_benign : LaharSwapOracle.benign default := by
  intro e he
  simp [default, Inhabited.default] at he

theorem list_getD_mem_or {α : Type} :
    ∀ (l : List α) (n : Nat) (d : α), l.getD n d ∈ l ∨ l.getD n d = d := by
  intro l
  induction l with
  | nil => intro n d; exact Or.inr (by cases n <;> rfl)
  | cons a t ih =>
    intro n d
    cases n with
    | zero => exact Or.inl (List.mem_cons_self a t)
    | succ m =>
      rcases ih m d with h | h
      · exact Or.inl (List.mem_cons_of_mem a h)
      · exact Or.inr h

theorem list_set_ge {α : Type} :
    ∀ (l : List α) (i : Nat) (a : α), l.length ≤ i → l.set i a = l := by
  intro l
  induction l with
  | nil => intro i a _; rfl
  | cons b t ih =>
    intro i a h
    cases i with
    | zero => exact absurd h (by simp)
    | succ m =>
      show b :: t.set m a = b :: t
      rw [ih m a (Nat.le_of_succ_le_succ h)]

theorem color_views_err_code (imgs : List Nat) (views : List (Option Nat))
    (set_layout : Bool) :
    ∀ (idxs : List Nat) (atts : List LaharAttachment),
      ¬isFrameStateErr (__lahar_color_views_go imgs views set_layout idxs atts).1 := by
  intro idxs
  induction idxs with
  | nil => intro atts; exact (by decide : ¬isFrameStateErr LAHAR_ERR_SUCCESS)
  | cons j rest ih =>
    intro atts
    unfold __lahar_color_views_go
    cases views.getD j (some 0) with
    | none => exact (by decide : ¬isFrameStateErr LAHAR_ERR_VK_ERR)
    | some v => exact ih _

theorem extra_att_row_err_code (allocs : List (Except Nat Nat))
    (views : List (Option Nat)) (set_layout : Bool)
    (hb : ∀ e : Nat, Except.error e ∈ allocs → ¬isFrameStateErr e) :
    ∀ (ks : List Nat) (cursor : Nat) (row : List LaharAttachment),
      ¬isFrameStateErr (__lahar_extra_att_row allocs views set_layout ks cursor row).1 := by
  intro ks
  induction ks with
  | nil => intro cursor row; exact (by decide : ¬isFrameStateErr LAHAR_ERR_SUCCESS)
  | cons k rest ih =>
    intro cursor row
    unfold __lahar_extra_att_row
    cases hg : allocs.getD cursor (Except.ok 0) with
    | error e =>
      have : Except.error e ∈ allocs ∨ (Except.error e : Except Nat Nat) = Except.ok 0 := by
        rw [← hg]
        exact list_getD_mem_or allocs cursor (Except.ok 0)
      rcases this with h | h
      · exact hb e h
      · exact Except.noConfusion h
    | ok img =>
      cases views.getD cursor (some 0) with
      | none => exact (by decide : ¬isFrameStateErr LAHAR_ERR_VK_ERR)
      | some v => exact ih _ _

theorem extra_atts_err_code (allocs : List (Except Nat Nat))
    (views : List (Option Nat)) (set_layout : Bool) (swap_size : Nat)
    (hb : ∀ e : Nat, Except.error e ∈ allocs → ¬isFrameStateErr e) :
    ∀ (js : List Nat) (cursor : Nat) (atts : List (List LaharAttachment)),
      ¬isFrameStateErr (__lahar_extra_atts allocs views set_layout swap_size js cursor atts).1 := by
  intro js
  induction js with
  | nil => intro cursor atts; exact (by decide : ¬isFrameStateErr LAHAR_ERR_SUCCESS)
  | cons j rest ih =>
    intro cursor atts
    unfold __lahar_extra_atts
    by_cases h : (__lahar_extra_att_row allocs views set_layout
        (List.range swap_size) cursor (atts.getD j [])).1 ≠ LAHAR_ERR_SUCCESS
    · rw [if_pos h]
      exact extra_att_row_err_code allocs views set_layout hb _ _ _
    · rw [if_neg h]
      exact ih _ _

theorem resizer_core_err_code (lahar0 lahar2 : Lahar) (ws : LaharWindowState)
    (i old_swap_size : Nat) (o : LaharSwapOracle)
    (hb : o.benign) :
    ¬isFrameStateErr (__lahar_resizer_core lahar0 lahar2 ws i old_swap_size o).1 := by
  unfold __lahar_resizer_core
  dsimp only
  split
  · exact (by decide : ¬isFrameStateErr LAHAR_ERR_SUCCESS)
  · split
    · exact (by decide : ¬isFrameStateErr LAHAR_MODEL_ASSERT_FAILED)
    · split
      · exact color_views_err_code o.swap_images o.color_view_results true _ _
      · split
        · exact (by decide : ¬isFrameStateErr LAHAR_ERR_INVALID_CONFIGURATION)
        · exact extra_atts_err_code o.alloc_results o.att_view_results true _ hb _ _ _

theorem resizer_err_code (lahar : Lahar) (window i : Nat) (o : LaharSwapOracle)
    (hfind : lahar_window_state_idx lahar window = some i)
    (hb : o.benign) :
    ¬isFrameStateErr (__lahar_default_resizer lahar window o).1 := by
  unfold __lahar_default_resizer
  rw [hfind]
  show ¬isFrameStateErr
    (if (!o.wait_ok) = true then (LAHAR_ERR_VK_ERR, lahar, ([] : List VkSwapchainCreateRecord))
     else _).1
  split
  · exact (by decide : ¬isFrameStateErr LAHAR_ERR_VK_ERR)
  · split
    · exact (by decide : ¬isFrameStateErr LAHAR_ERR_INVALID_STATE)
    · split
      · exact (by decide : ¬isFrameStateErr LAHAR_ERR_VK_ERR)
      · exact resizer_core_err_code lahar _ _ i _ o hb

theorem swapchain_resize_err_code (lahar : Lahar) (window i : Nat)
    (o : LaharSwapOracle)
    (hfind : lahar_window_state_idx lahar window = some i)
    (hb : o.benign) :
    ¬isFrameStateErr (lahar_window_swapchain_resize lahar window o).1 := by
  unfold lahar_window_swapchain_resize
  rw [hfind]
  exact resizer_err_code lahar window i o hfind hb

/-- The window fields C10 tracks: identity, frame phase, flight index, frame
index. -/
def frameFields (w : LaharWindowState) : Nat × LaharFramePhase × Nat × Nat :=
  (w.window, w.frame_phase, w.flight_index, w.frame_index)

def Lahar.frameShape (l : Lahar) : List (Nat × LaharFramePhase × Nat × Nat) :=
  l.windows.map frameFields

theorem shape_set_of_fields (l : Lahar) (i : Nat) (a : LaharWindowState)
    (h : i < l.windows.length → frameFields (l.windows.getD i default) = frameFields a) :
    (l.setWindow i a).frameShape = l.frameShape := by
  by_cases hi : i < l.windows.length
  · unfold Lahar.frameShape Lahar.setWindow
    dsimp only
    exact list_map_set_of_eq frameFields l.windows i a default (h hi).symm
  · unfold Lahar.frameShape Lahar.setWindow
    dsimp only
    rw [list_set_ge l.windows i a (Nat.le_of_not_lt hi)]

theorem shape_map_window :
    ∀ (l1 l2 : List LaharWindowState),
      l1.map frameFields = l2.map frameFields →
      l1.map (fun w => w.window) = l2.map (fun w => w.window) := by
  intro l1
  induction l1 with
  | nil =>
    intro l2 h
    cases l2 with
    | nil => rfl
    | cons b t => simp at h
  | cons a t ih =>
    intro l2 h
    cases l2 with
    | nil => simp at h
    | cons b t2 =>
      simp only [List.map_cons, List.cons.injEq] at h ⊢
      obtain ⟨h1, h2⟩ := h
      exact ⟨congrArg Prod.fst h1, ih t2 h2⟩

theorem shape_getD_fields :
    ∀ (l1 l2 : List LaharWindowState),
      l1.map frameFields = l2.map frameFields →
      ∀ i : Nat, i < l1.length →
        frameFields (l1.getD i default) = frameFields (l2.getD i default) := by
  intro l1
  induction l1 with
  | nil => intro l2 h i hi; exact absurd hi (Nat.not_lt_zero i)
  | cons a t ih =>
    intro l2 h i hi
    cases l2 with
    | nil => simp at h
    | cons b t2 =>
      simp only [List.map_cons, List.cons.injEq] at h
      obtain ⟨h1, h2⟩ := h
      cases i with
      | zero => exact h1
      | succ n => exact ih t2 h2 n (Nat.lt_of_succ_lt_succ hi)

theorem shape_length :
    ∀ (l1 l2 : List LaharWindowState),
      l1.map frameFields = l2.map frameFields → l1.length = l2.length := by
  intro l1 l2 h
  have := congrArg List.length h
  simpa using this

theorem shape_find (a b : Lahar) (h : a.frameShape = b.frameShape) (window : Nat) :
    __lahar_find_window a.windows window = __lahar_find_window b.windows window :=
  find_window_eq_of_map_eq a.windows b.windows window (shape_map_window _ _ h)

theorem resizer_core_shape (lahar0 lahar2 : Lahar) (ws : LaharWindowState)
    (i old_swap_size : Nat) (o : LaharSwapOracle)
    (h : i < lahar2.windows.length →
      frameFields (lahar2.windows.getD i default) = frameFields ws) :
    ((__lahar_resizer_core lahar0 lahar2 ws i old_swap_size o).2).frameShape
      = lahar2.frameShape := by
  have h1 : (lahar2.setWindow i { ws with swap_size := o.swap_image_count }).frameShape
      = lahar2.frameShape :=
    shape_set_of_fields lahar2 i _ (fun hi => h hi)
  have hlen3 : i < lahar2.windows.length →
      i < (lahar2.setWindow i { ws with swap_size := o.swap_image_count }).windows.length := by
    intro hi
    simpa [Lahar.setWindow] using hi
  have hget3 : i < lahar2.windows.length →
      (lahar2.setWindow i { ws with swap_size := o.swap_image_count }).windows.getD i default
        = { ws with swap_size := o.swap_image_count } := by
    intro hi
    simp only [Lahar.setWindow]
    exact list_getD_set_self lahar2.windows i _ default hi
  unfold __lahar_resizer_core
  dsimp only
  split
  · rfl
  · split
    · exact h1
    · -- shape of lahar4 over lahar3
      have hlen2 : (lahar2.setWindow i { ws with swap_size := o.swap_image_count }).windows.length
          = lahar2.windows.length := by
        simp [Lahar.setWindow]
      have h2 : ∀ a : LaharWindowState, frameFields a = frameFields ws →
          ((lahar2.setWindow i { ws with swap_size := o.swap_image_count }).setWindow i a).frameShape
            = lahar2.frameShape := by
        intro a ha
        refine Eq.trans (shape_set_of_fields _ i a ?_) h1
        intro hi
        rw [hget3 (hlen2 ▸ hi)]
        exact ha.symm ▸ rfl
      split
      · exact h2 _ rfl
      · split
        · exact h2 _ rfl
        · -- lahar5 sets on lahar4; all with the fields of ws
          have hget4 : ∀ a : LaharWindowState,
              i < lahar2.windows.length →
              (((lahar2.setWindow i { ws with swap_size := o.swap_image_count }).setWindow i a).windows.getD
                i default) = a := by
            intro a hi
            simp only [Lahar.setWindow]
            refine list_getD_set_self _ i a default ?_
            simpa using hi
          refine Eq.trans (shape_set_of_fields _ i _ ?_) (h2 _ rfl)
          intro hi
          have hi2 : i < lahar2.windows.length := by
            simpa [Lahar.setWindow] using hi
          rw [hget4 _ hi2]
          rfl

theorem norm_desired_fields (ws : LaharWindowState) :
    frameFields (__lahar_norm_desired ws) = frameFields ws := by
  unfold __lahar_norm_desired
  split <;> rfl

theorem resizer_shape (lahar : Lahar) (window : Nat) (o : LaharSwapOracle) :
    ((__lahar_default_resizer lahar window o).2.1).frameShape = lahar.frameShape := by
  unfold __lahar_default_resizer
  cases hfind : lahar_window_state_idx lahar window with
  | none => rfl
  | some i =>
    dsimp only
    split
    · rfl
    · split
      · rfl
      · have h1 : (lahar.setWindow i
            (__lahar_norm_desired (lahar.windows.getD i default))).frameShape
            = lahar.frameShape :=
          shape_set_of_fields _ i _
            (fun _ => (norm_desired_fields (lahar.windows.getD i default)).symm)
        split
        · exact h1
        · have hget1 : i < lahar.windows.length →
              (lahar.setWindow i
                (__lahar_norm_desired (lahar.windows.getD i default))).windows.getD i default
                = __lahar_norm_desired (lahar.windows.getD i default) := by
            intro hi
            simp only [Lahar.setWindow]
            exact list_getD_set_self lahar.windows i _ default hi
          have h2 : ((lahar.setWindow i
              (__lahar_norm_desired (lahar.windows.getD i default))).setWindow i
              { __lahar_norm_desired (lahar.windows.getD i default) with
                surface_format := __lahar_default_surface_format_chooser lahar.physdev_info }).frameShape
              = lahar.frameShape := by
            refine Eq.trans (shape_set_of_fields _ i _ ?_) h1
            intro hi
            have hi2 : i < lahar.windows.length := by
              simpa [Lahar.setWindow] using hi
            rw [hget1 hi2]
            rfl
          refine Eq.trans (resizer_core_shape lahar _ _ i _ o ?_) h2
          intro hi
          have hi2 : i < lahar.windows.length := by
            simpa [Lahar.setWindow] using hi
          simp only [Lahar.setWindow]
          refine Eq.trans (congrArg frameFields
            (list_getD_set_self _ i _ default (by simpa using hi2))) ?_
          rfl

theorem swapchain_resize_shape (lahar : Lahar) (window : Nat) (o : LaharSwapOracle) :
    ((lahar_window_swapchain_resize lahar window o).2.1).frameShape = lahar.frameShape := by
  unfold lahar_window_swapchain_resize
  cases hfind : lahar_window_state_idx lahar window with
  | none => rfl
  | some i => exact resizer_shape lahar window o

theorem benign_headD (ros : List LaharSwapOracle)
    (hb : ∀ o ∈ ros, o.benign) : (ros.headD default).benign := by
  cases ros with
  | nil => exact default_oracle_benign
  | cons o t => exact hb o (List.mem_cons_self o t)

theorem frame_begin_cons_eq (lahar : Lahar) (window i : Nat)
    (acq : LaharAcquireOutcome) (acqs : List LaharAcquireOutcome)
    (ros : List LaharSwapOracle)
    (hw : window ≠ 0)
    (hfind : lahar_window_state_idx lahar window = some i)
    (hphase : (lahar.windows.getD i default).frame_phase = LaharFramePhase.BEGIN) :
    lahar_window_frame_begin lahar window (acq :: acqs) ros
      = (let ws1 := if acq.res = VK_SUCCESS ∨ acq.res = VK_SUBOPTIMAL_KHR
            then { lahar.windows.getD i default with frame_index := acq.image_index }
            else lahar.windows.getD i default
         let lahar1 := lahar.setWindow i ws1
         if acq.res = VK_SUBOPTIMAL_KHR ∨ acq.res = VK_ERROR_OUT_OF_DATE_KHR then
           if ws1.auto_recreate_swap then
             let r := lahar_window_swapchain_resize lahar1 window (ros.headD default)
             if r.1 ≠ LAHAR_ERR_SUCCESS then (r.1, r.2.1)
             else lahar_window_frame_begin r.2.1 window acqs (ros.tailD [])
           else (LAHAR_ERR_SWAPCHAIN_OUT_OF_DATE, lahar1)
         else if acq.res ≠ VK_SUCCESS then (LAHAR_ERR_VK_ERR, lahar1)
         else (LAHAR_ERR_SUCCESS,
           lahar1.setWindow i { ws1 with frame_phase := LaharFramePhase.DRAW })) := by
  conv_lhs => rw [lahar_window_frame_begin]
  rw [if_neg hw]
  simp only [hfind]
  rw [if_neg (not_not_intro hphase)]

theorem frame_begin_tail_cases (acqs : List LaharAcquireOutcome)
    (ros : List LaharSwapOracle) (lahar : Lahar) (window i : Nat)
    (ws1 : LaharWindowState) (acqres : Int)
    (hfind : lahar_window_state_idx lahar window = some i)
    (hws1w : ws1.window = window)
    (hws1p : ws1.frame_phase = LaharFramePhase.BEGIN)
    (hlen : i < lahar.windows.length)
    (hb : ∀ o ∈ ros, o.benign)
    (hih : ∀ (ros' : List LaharSwapOracle) (lahar' : Lahar),
      lahar_window_state_idx lahar' window = some i →
      (lahar'.windows.getD i default).frame_phase = LaharFramePhase.BEGIN →
      (∀ o ∈ ros', o.benign) →
      ¬isFrameStateErr (lahar_window_frame_begin lahar' window acqs ros').1) :
    ¬isFrameStateErr
      (if acqres = VK_SUBOPTIMAL_KHR ∨ acqres = VK_ERROR_OUT_OF_DATE_KHR then
        if ws1.auto_recreate_swap then
          let r := lahar_window_swapchain_resize (lahar.setWindow i ws1) window
            (ros.headD default)
          if r.1 ≠ LAHAR_ERR_SUCCESS then (r.1, r.2.1)
          else lahar_window_frame_begin r.2.1 window acqs (ros.tailD [])
        else (LAHAR_ERR_SWAPCHAIN_OUT_OF_DATE, lahar.setWindow i ws1)
      else if acqres ≠ VK_SUCCESS then (LAHAR_ERR_VK_ERR, lahar.setWindow i ws1)
      else (LAHAR_ERR_SUCCESS,
        (lahar.setWindow i ws1).setWindow i
          { ws1 with frame_phase := LaharFramePhase.DRAW })).1 := by
  have hfind1 : lahar_window_state_idx (lahar.setWindow i ws1) window = some i :=
    find_window_set lahar.windows window i ws1 hfind hws1w
  dsimp only
  split
  · split
    · split
      · exact swapchain_resize_err_code _ window i _ hfind1 (benign_headD ros hb)
      · have hshape := swapchain_resize_shape (lahar.setWindow i ws1) window
          (ros.headD default)
        have hlen1 : i < (lahar.setWindow i ws1).windows.length := by
          simpa [Lahar.setWindow] using hlen
        have hlenr : i < ((lahar_window_swapchain_resize (lahar.setWindow i ws1)
            window (ros.headD default)).2.1).windows.length := by
          rw [shape_length _ _ hshape]
          exact hlen1
        have hfields := shape_getD_fields _ _ hshape i hlenr
        have hget1 : (lahar.setWindow i ws1).windows.getD i default = ws1 := by
          simp only [Lahar.setWindow]
          exact list_getD_set_self lahar.windows i ws1 default hlen
        have hphase1 : (((lahar_window_swapchain_resize (lahar.setWindow i ws1)
            window (ros.headD default)).2.1).windows.getD i default).frame_phase
            = LaharFramePhase.BEGIN := by
          have hc := congrArg (fun t => t.2.1) hfields
          simp only [frameFields] at hc
          rw [hc, hget1]
          exact hws1p
        have hfindr : lahar_window_state_idx
            ((lahar_window_swapchain_resize (lahar.setWindow i ws1) window
              (ros.headD default)).2.1) window = some i := by
          show __lahar_find_window _ window = some i
          rw [shape_find _ _ hshape window]
          exact hfind1
        exact hih (ros.tailD []) _ hfindr hphase1
          (fun o ho => hb o (list_mem_tailD ros o ho))
    · exact (by decide : ¬isFrameStateErr LAHAR_ERR_SWAPCHAIN_OUT_OF_DATE)
  · split
    · exact (by decide : ¬isFrameStateErr LAHAR_ERR_VK_ERR)
    · exact (by decide : ¬isFrameStateErr LAHAR_ERR_SUCCESS)

theorem frame_begin_not_frame_err :
    ∀ (acqs : List LaharAcquireOutcome) (ros : List LaharSwapOracle)
      (lahar : Lahar) (window i : Nat),
      window ≠ 0 →
      lahar_window_state_idx lahar window = some i →
      (lahar.windows.getD i default).frame_phase = LaharFramePhase.BEGIN →
      (∀ o ∈ ros, o.benign) →
      ¬isFrameStateErr (lahar_window_frame_begin lahar window acqs ros).1 := by
  intro acqs
  induction acqs with
  | nil =>
    intro ros lahar window i hw hfind hphase hb
    exact (by decide : ¬isFrameStateErr LAHAR_MODEL_NO_ORACLE)
  | cons acq acqs ih =>
    intro ros lahar window i hw hfind hphase hb
    have hwindow : (lahar.windows.getD i default).window = window :=
      find_window_get lahar.windows window i default hfind
    have hlen : i < lahar.windows.length :=
      find_window_lt_length lahar.windows window i hfind
    rw [frame_begin_cons_eq lahar window i acq acqs ros hw hfind hphase]
    dsimp only
    exact frame_begin_tail_cases acqs ros lahar window i _ acq.res hfind
      (by split <;> exact hwindow)
      (by split <;> exact hphase)
      hlen hb
      (fun ros' lahar' hfind' hphase' hb' =>
        ih ros' lahar' window i hw hfind' hphase' hb')

/-- C10: whenever lahar_window_submit_all, lahar_window_present, or
lahar_window_frame_begin returns one of the phase/window/parameter error
codes (LAHAR_ERR_ILLEGAL_PARAMS, LAHAR_ERR_INVALID_WINDOW,
LAHAR_ERR_NO_COMMAND_BUFFER, LAHAR_ERR_INVALID_FRAME_STATE), the entire
state — in particular every window's frame_phase, flight_index and
frame_index — is returned unchanged.  For frame_begin the configured
allocator is assumed not to impersonate these lahar error codes
(LaharSwapOracle.benign). -/
theorem c10_frame_errors_leave_state (lahar : Lahar) (window : Nat) :
    (∀ (cmds_isnull : Bool) (cmd_count : Nat) (ok : Bool),
      isFrameStateErr (lahar_window_submit_all lahar window cmds_isnull cmd_count ok).1 →
      (lahar_window_submit_all lahar window cmds_isnull cmd_count ok).2 = lahar)
    ∧ (∀ ok : Bool,
        isFrameStateErr (lahar_window_present lahar window ok).1 →
        (lahar_window_present lahar window ok).2 = lahar)
    ∧ (∀ (acqs : List LaharAcquireOutcome) (ros : List LaharSwapOracle),
        (∀ o ∈ ros, o.benign) →
        isFrameStateErr (lahar_window_frame_begin lahar window acqs ros).1 →
        (lahar_window_frame_begin lahar window acqs ros).2 = lahar) := by
  refine ⟨?_, ?_, ?_⟩
  · intro cn cc ok
    unfold lahar_window_submit_all
    dsimp only
    repeat' split
    all_goals
      intro h
      first
        | rfl
        | exact absurd h (by decide : ¬isFrameStateErr LAHAR_ERR_SUCCESS)
  · intro ok
    unfold lahar_window_present
    dsimp only
    repeat' split
    all_goals
      intro h
      first
        | rfl
        | exact absurd h (by decide : ¬isFrameStateErr LAHAR_ERR_SUCCESS)
  · intro acqs ros hb herr
    cases acqs with
    | nil =>
      exact absurd herr (by decide : ¬isFrameStateErr LAHAR_MODEL_NO_ORACLE)
    | cons acq acqs =>
      by_cases hw : window = 0
      · have h2 : lahar_window_frame_begin lahar window (acq :: acqs) ros
            = (LAHAR_ERR_ILLEGAL_PARAMS, lahar) := by
          conv_lhs => rw [lahar_window_frame_begin]
          rw [if_pos hw]
        rw [h2]
      · cases hfind : lahar_window_state_idx lahar window with
        | none =>
          have h2 : lahar_window_frame_begin lahar window (acq :: acqs) ros
              = (LAHAR_ERR_INVALID_WINDOW, lahar) := by
            conv_lhs => rw [lahar_window_frame_begin]
            rw [if_neg hw]
            simp only [hfind]
          rw [h2]
        | some i =>
          by_cases hphase :
              (lahar.windows.getD i default).frame_phase = LaharFramePhase.BEGIN
          · exact absurd herr
              (frame_begin_not_frame_err (acq :: acqs) ros lahar window i
                hw hfind hphase hb)
          · have h2 : lahar_window_frame_begin lahar window (acq :: acqs) ros
                = (LAHAR_ERR_INVALID_FRAME_STATE, lahar) := by
              conv_lhs => rw [lahar_window_frame_begin]
              rw [if_neg hw]
              simp only [hfind]
              rw [if_pos hphase]
            rw [h2]

def c10_window_state : LaharWindowState :=
  { window := 7, width := 800, height := 600, desired_img_count := 2, max_in_flight := 2
    frame_phase := LaharFramePhase.BEGIN, alpha := 1, auto_recreate_swap := true
    surface_format := (VK_FORMAT_B8G8R8A8_SRGB, VK_COLORSPACE_SRGB_NONLINEAR_KHR)
    swap_size := 2, flight_index := 0, frame_index := 0
    attachment_count := 1
    attachment_configs := [{ usage := 0 }]
    attachments := [[default, default]] }

def c10_lahar : Lahar :=
  { wantcommands := false, gpu_allocator := false, device_name := none,
    physdev_info := default, windows := [c10_window_state], extensions := default }

/-- Witness for C10: a present called in BEGIN phase returns a listed error
and leaves the state untouched. -/
theorem c10_frame_errors_leave_state_witness :
    isFrameStateErr (lahar_window_present c10_lahar 7 true).1
    ∧ (lahar_window_present c10_lahar 7 true).2 = c10_lahar :=
  ⟨by decide,
   (c10_frame_errors_leave_state c10_lahar 7).2.1 true (by decide)⟩
